import Mathlib

/-!
AuraLink dashboard (`src/App.js`): session arbitration, connection manager and
the sliding chart history.

A shallow embedding of the stateful parts of `App.js`:

* `updateHistoricalData` (lines 336-375) over the chart history,
* `checkActiveSession`, `claimSession`, `releaseSession` (lines 80-102) over
  the browser's `localStorage`,
* `connectToMqtt` and the transport event handlers (lines 129-333),
* `clearRetainedMessages` and the two shutdown paths (lines 104-126, 392-473),
* the `message` handler (lines 225-267),
* the admission steps, heartbeat ticks and releases of several instances over
  one shared `localStorage`.

JavaScript arrays are lists, `null` is `none`, React state and refs are
fields of explicit state records, and the clock (`Date.now()`, the time label
computed from `new Date()`) is an argument of the function that reads it.
-/

namespace AuraLink

/-! ## Numbers -/

/-- A JavaScript number as produced by `parseFloat` / `parseInt`: either
not-a-number or a numeric value.  The history only stores these values and
tests them with `isNaN`; no arithmetic is performed on them. -/
inductive JSNum where
  | nan : JSNum
  | num (q : Rat) : JSNum
  deriving DecidableEq, Repr

/-- The global `isNaN` on a `JSNum`. -/
def isNaN : JSNum → Bool
  | JSNum.nan => true
  | JSNum.num _ => false

/-! ## The chart history (`historicalData`, lines 52-59 and 336-375) -/

/-- The property names used as `sensorType` in `updateHistoricalData`. -/
inductive SensorType where
  | temperature
  | humidity
  | mq135
  deriving DecidableEq, Repr

/-- The `historicalData` state (lines 53-58): a label array and one array per
sensor; an entry of a sensor array is a number or `null`. -/
structure HistoricalData where
  labels : List String
  temperature : List (Option JSNum)
  humidity : List (Option JSNum)
  mq135 : List (Option JSNum)
  deriving DecidableEq, Repr

/-- The initial `useState` value of `historicalData` (lines 53-58). -/
def emptyHistory : HistoricalData :=
  { labels := [], temperature := [], humidity := [], mq135 := [] }

/-- The constant `MAX_DATA_POINTS` (line 59). -/
def MAX_DATA_POINTS : Nat := 20

/-- Property access `newData[sensorType]`. -/
def HistoricalData.series (d : HistoricalData) : SensorType → List (Option JSNum)
  | SensorType.temperature => d.temperature
  | SensorType.humidity => d.humidity
  | SensorType.mq135 => d.mq135

/-- Assignment to the array `newData[sensorType]`. -/
def HistoricalData.setSeries (d : HistoricalData) (k : SensorType)
    (xs : List (Option JSNum)) : HistoricalData :=
  match k with
  | SensorType.temperature => { d with temperature := xs }
  | SensorType.humidity => { d with humidity := xs }
  | SensorType.mq135 => { d with mq135 := xs }

/-- The pushed placeholder `a.length > 0 ? a[a.length - 1] : null`
(lines 355-357). -/
def placeholder (a : List (Option JSNum)) : Option JSNum :=
  if 0 < a.length then (a.getD (a.length - 1) none) else none

/-- Lines 349-350: `labels.length === 0 || labels[labels.length - 1] !== timeLabel`. -/
def shouldAddNewPoint (d : HistoricalData) (timeLabel : String) : Bool :=
  d.labels.length == 0 || (d.labels.get? (d.labels.length - 1) != some timeLabel)

/-- Lines 352-358: when a new point is due, push the label and one placeholder
per sensor array. -/
def addNewPoint (timeLabel : String) (d : HistoricalData) : HistoricalData :=
  if shouldAddNewPoint d timeLabel then
    { labels := d.labels ++ [timeLabel]
      temperature := d.temperature ++ [placeholder d.temperature]
      humidity := d.humidity ++ [placeholder d.humidity]
      mq135 := d.mq135 ++ [placeholder d.mq135] }
  else d

/-- Lines 360-363: overwrite the last entry of `newData[sensorType]` when that
array is not empty. -/
def writeValue (sensorType : SensorType) (value : JSNum) (d : HistoricalData) :
    HistoricalData :=
  if 0 < (d.series sensorType).length then
    d.setSeries sensorType
      ((d.series sensorType).set ((d.series sensorType).length - 1) (some value))
  else d

/-- Lines 365-371: when the label array is longer than `MAX_DATA_POINTS`,
`shift()` each of the four arrays once (`shift` on an empty array does
nothing). -/
def evictOldest (d : HistoricalData) : HistoricalData :=
  if MAX_DATA_POINTS < d.labels.length then
    { labels := d.labels.drop 1
      temperature := d.temperature.drop 1
      humidity := d.humidity.drop 1
      mq135 := d.mq135.drop 1 }
  else d

/-- The history after lines 348-363 of the updater, before the eviction of
lines 365-371. -/
def beforeEviction (sensorType : SensorType) (value : JSNum) (timeLabel : String)
    (d : HistoricalData) : HistoricalData :=
  writeValue sensorType value (addNewPoint timeLabel d)

/-- The function `updateHistoricalData` (lines 336-375) as a function of the previous
history; `timeLabel` is the label the updater computes from the clock. -/
def updateHistoricalData (sensorType : SensorType) (value : JSNum)
    (timeLabel : String) (prevData : HistoricalData) : HistoricalData :=
  if isNaN value then prevData
  else evictOldest (beforeEviction sensorType value timeLabel prevData)

/-- One call of `updateHistoricalData`: sensor key, value, time label. -/
structure Update where
  sensorType : SensorType
  value : JSNum
  timeLabel : String
  deriving DecidableEq, Repr

/-- The history after a sequence of calls, oldest call first. -/
def runUpdates (us : List Update) (d : HistoricalData) : HistoricalData :=
  us.foldl (fun acc u => updateHistoricalData u.sensorType u.value u.timeLabel acc) d

/-- The four arrays of a history have one common length. -/
def Aligned (d : HistoricalData) : Prop :=
  d.temperature.length = d.labels.length ∧ d.humidity.length = d.labels.length ∧
    d.mq135.length = d.labels.length

instance (d : HistoricalData) : Decidable (Aligned d) := by
  unfold Aligned; infer_instance

/-- A one-slot history: temperature and humidity reported at `10:00:00`,
`mq135` not yet. -/
def sampleHistory : HistoricalData :=
  { labels := ["10:00:00"], temperature := [some (JSNum.num 21.5)],
    humidity := [some (JSNum.num 60)], mq135 := [none] }

/-- The two calls that lead from the empty history to `sampleHistory`. -/
def sampleUpdates : List Update :=
  [⟨SensorType.temperature, JSNum.num 21.5, "10:00:00"⟩,
   ⟨SensorType.humidity, JSNum.num 60, "10:00:00"⟩]

/-- Twenty-one temperature readings `0, 1, ..., 20`, one per second from
`10:00:00` to `10:00:20`. -/
def twentyOneUpdates : List Update :=
  [⟨SensorType.temperature, JSNum.num 0, "10:00:00"⟩,
   ⟨SensorType.temperature, JSNum.num 1, "10:00:01"⟩,
   ⟨SensorType.temperature, JSNum.num 2, "10:00:02"⟩,
   ⟨SensorType.temperature, JSNum.num 3, "10:00:03"⟩,
   ⟨SensorType.temperature, JSNum.num 4, "10:00:04"⟩,
   ⟨SensorType.temperature, JSNum.num 5, "10:00:05"⟩,
   ⟨SensorType.temperature, JSNum.num 6, "10:00:06"⟩,
   ⟨SensorType.temperature, JSNum.num 7, "10:00:07"⟩,
   ⟨SensorType.temperature, JSNum.num 8, "10:00:08"⟩,
   ⟨SensorType.temperature, JSNum.num 9, "10:00:09"⟩,
   ⟨SensorType.temperature, JSNum.num 10, "10:00:10"⟩,
   ⟨SensorType.temperature, JSNum.num 11, "10:00:11"⟩,
   ⟨SensorType.temperature, JSNum.num 12, "10:00:12"⟩,
   ⟨SensorType.temperature, JSNum.num 13, "10:00:13"⟩,
   ⟨SensorType.temperature, JSNum.num 14, "10:00:14"⟩,
   ⟨SensorType.temperature, JSNum.num 15, "10:00:15"⟩,
   ⟨SensorType.temperature, JSNum.num 16, "10:00:16"⟩,
   ⟨SensorType.temperature, JSNum.num 17, "10:00:17"⟩,
   ⟨SensorType.temperature, JSNum.num 18, "10:00:18"⟩,
   ⟨SensorType.temperature, JSNum.num 19, "10:00:19"⟩,
   ⟨SensorType.temperature, JSNum.num 20, "10:00:20"⟩]

/-! ## `localStorage` and the session lease (lines 36-38 and 80-102) -/

/-- The browser's `localStorage`: string keys bound to string values, each key
bound at most once. -/
abbrev Store := List (String × String)

/-- The call `localStorage.getItem(key)`: the value bound to `key`, or `null`. -/
def getItem (store : Store) (key : String) : Option String :=
  (store.find? (fun p => p.1 == key)).map (fun p => p.2)

/-- The call `localStorage.removeItem(key)`. -/
def removeItem (key : String) (store : Store) : Store :=
  store.filter (fun p => p.1 != key)

/-- The call `localStorage.setItem(key, value)`: `key` is bound to `value`, every other
binding is kept. -/
def setItem (key value : String) (store : Store) : Store :=
  (key, value) :: removeItem key store

/-- The constant `SESSION_KEY` (line 37). -/
def SESSION_KEY : String := "auralink_mqtt_session"

/-- The constant `HEARTBEAT_KEY` (line 38). -/
def HEARTBEAT_KEY : String := "auralink_heartbeat"

/-- White space skipped by `parseInt` before the number (ECMAScript
`WhiteSpace` and `LineTerminator`). -/
def isWhiteSpace (c : Char) : Bool :=
  let n := c.toNat
  n == 9 || n == 10 || n == 11 || n == 12 || n == 13 || n == 32 || n == 160 ||
  n == 5760 || (8192 ≤ n && n ≤ 8202) || n == 8232 || n == 8233 || n == 8239 ||
  n == 8287 || n == 12288 || n == 65279

/-- The value of `c` as a digit of the given radix, if it is one. -/
def digitVal (radix : Nat) (c : Char) : Option Nat :=
  let n := c.toNat
  let v : Option Nat :=
    if 48 ≤ n ∧ n ≤ 57 then some (n - 48)
    else if 97 ≤ n ∧ n ≤ 122 then some (n - 87)
    else if 65 ≤ n ∧ n ≤ 90 then some (n - 55)
    else none
  match v with
  | some d => if d < radix then some d else none
  | none => none

/-- The digits of the longest prefix of `cs` made of digits of the radix. -/
def digitPrefix (radix : Nat) : List Char → List Nat
  | [] => []
  | c :: cs =>
    match digitVal radix c with
    | some d => d :: digitPrefix radix cs
    | none => []

/-- The optional sign of `parseInt`: whether it is `-`, and the rest. -/
def stripSign : List Char → Bool × List Char
  | [] => (false, [])
  | c :: cs => if c = '-' then (true, cs) else if c = '+' then (false, cs) else (false, c :: cs)

/-- The optional `0x` / `0X` prefix of `parseInt`: the radix, and the rest. -/
def stripRadix : List Char → Nat × List Char
  | c :: d :: cs =>
    if c = '0' ∧ (d = 'x' ∨ d = 'X') then (16, cs) else (10, c :: d :: cs)
  | cs => (10, cs)

/-- The global `parseInt(string)` without a radix argument; `none` is `NaN`.
The result is the exact integer, which is the JavaScript number whenever its
magnitude is below `2 ^ 53`, as every time stamp is. -/
def parseInt (s : String) : Option Int :=
  let signed := stripSign (s.data.dropWhile isWhiteSpace)
  let based := stripRadix signed.2
  let ds := digitPrefix based.1 based.2
  if ds.isEmpty then none
  else
    let m : Nat := ds.foldl (fun acc d => acc * based.1 + d) 0
    some (if signed.1 then - (m : Int) else (m : Int))

/-- The string `Date.now().toString()` for the clock value `now`, a number of
milliseconds since the epoch: its decimal digits. -/
def timestampString (now : Nat) : String := (Nat.toDigits 10 now).asString

/-- Truthiness of a string: every string but the empty one. -/
def truthy (s : String) : Bool := s != ""

/-- The function `checkActiveSession` (lines 81-90) on the store, at clock value `now`. -/
def checkActiveSession (store : Store) (now : Nat) : Bool :=
  match getItem store HEARTBEAT_KEY, getItem store SESSION_KEY with
  | some lastHeartbeat, some sessionActive =>
    if truthy sessionActive && truthy lastHeartbeat then
      match parseInt lastHeartbeat with
      | some h => decide ((now : Int) - h < 15000)
      | none => false
    else false
  | _, _ => false

/-- The function `claimSession` (lines 93-96) at clock value `now`. -/
def claimSession (now : Nat) (store : Store) : Store :=
  setItem HEARTBEAT_KEY (timestampString now) (setItem SESSION_KEY "active" store)

/-- The function `releaseSession` (lines 99-102). -/
def releaseSession (store : Store) : Store :=
  removeItem HEARTBEAT_KEY (removeItem SESSION_KEY store)

/-! ## The connection manager (lines 28-34 and 129-333) -/

/-- The fields of an `mqtt` client object that `App.js` reads or writes: the
library's `connected` and `disconnected` flags, the `heartbeatInterval`
handle attached at line 186, and whether `end(true)` was called on it
(lines 415, 459). -/
structure MqttClient where
  connected : Bool
  disconnected : Bool
  heartbeatInterval : Option Nat
  endCalled : Bool := false
  deriving DecidableEq, Repr

/-- The object returned by `mqtt.connect` (line 150), before any event. -/
def newMqttClient : MqttClient :=
  { connected := false, disconnected := false, heartbeatInterval := none }

/-- One call of `client.publish(topic, payload, { retain, qos })`. -/
structure PublishCall where
  topic : String
  payload : String
  retain : Bool
  qos : Nat
  deriving DecidableEq, Repr

/-- A pending `setTimeout` callback: the stabilisation timer of lines 192-194,
the delayed subscription of lines 201-222 for a client, and the delayed
`end(true)` of lines 458-460 for a client. -/
inductive Timeout where
  | stabilize
  | subscribe (client : Nat)
  | endClient (client : Nat)
  deriving DecidableEq, Repr

/-- One dashboard instance (one tab): the React state and refs of lines 30-34,
the client objects created so far (a reference to a client is its index in
`clients`), the interval timers that are running, and `localStorage`;
further the `publish` calls made so far, the number of timers created so far
(timer handles are `1, 2, ...`), the pending timeouts and the `subscribe`
calls made so far (client, topic). -/
structure Dashboard where
  connectionStatus : String
  isStableConnection : Bool
  connectionAttemptRef : Bool
  clientRef : Option Nat
  client : Option Nat
  clients : List MqttClient
  intervals : List Nat
  localStorage : Store
  published : List PublishCall := []
  timerCount : Nat := 0
  timeouts : List Timeout := []
  subscriptions : List (Nat × String) := []
  deriving DecidableEq, Repr

/-- The dashboard as first rendered (lines 30-34) over a given `localStorage`. -/
def initialDashboard (store : Store) : Dashboard :=
  { connectionStatus := "Disconnected", isStableConnection := false,
    connectionAttemptRef := false, clientRef := none, client := none, clients := [],
    intervals := [], localStorage := store }

/-- The test `clientRef.current && !clientRef.current.disconnected`
(lines 138, 178, 409, 443). -/
def clientActive (w : Dashboard) : Bool :=
  match w.clientRef with
  | none => false
  | some i =>
    match w.clients.get? i with
    | some c => !c.disconnected
    | none => false

/-- The three ways through the guards of `connectToMqtt` (lines 131-141). -/
inductive Admission where
  | conflict
  | busy
  | admitted
  deriving DecidableEq, Repr

/-- The guards of `connectToMqtt` in source order: the session check of line
131 first, the in-flight / active-client check of line 138 second. -/
def admission (now : Nat) (w : Dashboard) : Admission :=
  if checkActiveSession w.localStorage now then Admission.conflict
  else if w.connectionAttemptRef || clientActive w then Admission.busy
  else Admission.admitted

/-- Lines 143-145: `claimSession()` and `connectionAttemptRef.current = true`. -/
def claimAndMark (now : Nat) (w : Dashboard) : Dashboard :=
  { w with localStorage := claimSession now w.localStorage, connectionAttemptRef := true }

/-- The admission step of `connectToMqtt`, lines 129-146: everything before
the `try` block that opens the transport. -/
def admissionStep (now : Nat) (w : Dashboard) : Dashboard :=
  match admission now w with
  | Admission.conflict => { w with connectionStatus := "Another Tab Active" }
  | Admission.busy => w
  | Admission.admitted => claimAndMark now w

/-- The `try` block of `connectToMqtt` (lines 148-332).  When `mqtt.connect`
returns, a new client object exists and the handlers are registered on it;
when it throws (`connectThrows`), the `catch` branch of lines 326-332 runs. -/
def openTransport (connectThrows : Bool) (w : Dashboard) : Dashboard :=
  if connectThrows then
    { w with connectionStatus := "Init Error", isStableConnection := false,
             connectionAttemptRef := false,
             localStorage := releaseSession w.localStorage }
  else { w with clients := w.clients ++ [newMqttClient] }

/-- The function `connectToMqtt` (lines 129-333) at clock value `now`. -/
def connectToMqtt (now : Nat) (connectThrows : Bool) (w : Dashboard) : Dashboard :=
  match admission now w with
  | Admission.conflict => { w with connectionStatus := "Another Tab Active" }
  | Admission.busy => w
  | Admission.admitted => openTransport connectThrows (claimAndMark now w)

/-- The method `String.prototype.includes`: `pattern` occurs somewhere in `s`. -/
def includes (s pattern : String) : Bool :=
  s.data.tails.any (fun t => pattern.data.isPrefixOf t)

/-- The argument of the `error` handler; `message` is `none` when the error
has no `message` property. -/
structure JSError where
  message : Option String
  deriving DecidableEq, Repr

/-- The test `error.message && error.message.includes(pattern)` (lines 274, 277). -/
def messageIncludes (error : JSError) (pattern : String) : Bool :=
  match error.message with
  | some m => truthy m && includes m pattern
  | none => false

/-- The `error` handler (lines 269-284). -/
def onError (error : JSError) (w : Dashboard) : Dashboard :=
  { w with
    connectionAttemptRef := false
    connectionStatus :=
      if messageIncludes error "Not authorized" then "Auth Error"
      else if messageIncludes error "Insufficient resources" then "Server Busy"
      else "Error"
    isStableConnection := false }

/-- The state the specification calls `Connecting`: a claim was made and the
connection attempt is in flight. -/
def isConnecting (w : Dashboard) : Bool := w.connectionAttemptRef

/-- The state the specification calls `ConnectedUnstable`. -/
def isConnectedUnstable (w : Dashboard) : Bool :=
  w.connectionStatus == "Connected" && !w.isStableConnection

/-- The state the specification calls `ConnectedStable`. -/
def isConnectedStable (w : Dashboard) : Bool :=
  w.connectionStatus == "Connected" && w.isStableConnection

/-- A dashboard just after the connect acknowledgement of a session claimed
at clock value 1000: client 0 is connected, its heartbeat interval (handle 1)
is running and the lease is in `localStorage`. -/
def unstableDashboard : Dashboard :=
  { connectionStatus := "Connected", isStableConnection := false,
    connectionAttemptRef := false, clientRef := some 0, client := some 0,
    clients := [{ connected := true, disconnected := false, heartbeatInterval := some 1 }],
    intervals := [1], localStorage := claimSession 1000 [],
    published := [{ topic := "auralink/dashboard/status", payload := "online",
                    retain := true, qos := 0 }],
    timerCount := 3, timeouts := [Timeout.stabilize, Timeout.subscribe 0] }

/-- An authorisation failure as reported by the `mqtt` library. -/
def notAuthorized : JSError := { message := some "Connection refused: Not authorized" }

/-- A dashboard whose connection attempt is in flight: `connectToMqtt` ran at
clock value 1000 on an empty `localStorage` and the transport was opened. -/
def connectingDashboard : Dashboard :=
  connectToMqtt 1000 false (initialDashboard [])

/-! ## Topics, publishing and the shutdown paths (lines 62-126 and 392-473) -/

/-- The array `mqttConfig.subscribeTopics` (lines 66-73). -/
def mqttConfig.subscribeTopics : List String :=
  ["esp32/sensors/temperature", "esp32/sensors/humidity", "esp32/sensors/mq135",
   "esp32/sensors/led", "esp32/display", "esp32/email_summary"]

/-- The entry `mqttConfig.publishTopics.led` (line 75). -/
def mqttConfig.publishTopics.led : String := "esp32/led"

/-- The entry `mqttConfig.publishTopics.control` (line 76). -/
def mqttConfig.publishTopics.control : String := "esp32/control"

/-- The presence topic of the last will (line 162) and of the `online` /
`offline` announcements (lines 189, 414, 455). -/
def statusTopic : String := "auralink/dashboard/status"

/-- The array `topicsToClear` of `clearRetainedMessages` (lines 108-116). -/
def topicsToClear : List String :=
  ["auralink/dashboard/status", "esp32/sensors/temperature", "esp32/sensors/humidity",
   "esp32/sensors/mq135", "esp32/sensors/led", "esp32/display", "esp32/email_summary"]

/-- A piece of code that may throw: the state it leaves and whether it left by
an exception. -/
abbrev Action := Dashboard → Dashboard × Bool

/-- A statement that cannot throw. -/
def Action.ok (f : Dashboard → Dashboard) : Action :=
  fun w => (f w, false)

/-- Sequencing `a; b`: `b` runs only when `a` did not throw. -/
def Action.andThen (a b : Action) : Action :=
  fun w => if (a w).2 then a w else b (a w).1

/-- The block `try { a } catch (e) { console.warn(...) }`: the exception is swallowed. -/
def tryCatch (a : Action) : Action :=
  fun w => ((a w).1, false)

/-- The loop `topics.forEach(body)`: an exception leaving `body` ends the loop. -/
def forEachTopic (topics : List String) (body : String → Action) : Action :=
  fun w => topics.foldl (fun r topic => if r.2 then r else body topic r.1) (w, false)

/-- Which `publish` calls throw, by topic and payload: the behaviour of the
transport, not of `App.js`. -/
abbrev PublishFailures := String → String → Bool

/-- The call `client.publish(topic, payload, { retain, qos })`: it is recorded, and it
throws when the transport says so. -/
def publish (throwsOn : PublishFailures) (call : PublishCall) : Action :=
  fun w => ({ w with published := w.published ++ [call] }, throwsOn call.topic call.payload)

/-- The test `!client || client.disconnected` of line 106 on a client reference. -/
def clientUsable (w : Dashboard) (client : Option Nat) : Bool :=
  match client with
  | none => false
  | some i =>
    match w.clients.get? i with
    | some c => !c.disconnected
    | none => false

/-- The function `clearRetainedMessages` (lines 105-126). -/
def clearRetainedMessages (throwsOn : PublishFailures) (client : Option Nat) : Action :=
  fun w =>
    if clientUsable w client then
      forEachTopic topicsToClear
        (fun topic =>
          tryCatch (publish throwsOn { topic := topic, payload := "", retain := true, qos := 0 }))
        w
    else (w, false)

/-- The announcement published at lines 414 and 455. -/
def offlineAnnouncement : PublishCall :=
  { topic := "auralink/dashboard/status", payload := "offline", retain := true, qos := 0 }

/-- The announcement published at line 189. -/
def onlineAnnouncement : PublishCall :=
  { topic := "auralink/dashboard/status", payload := "online", retain := true, qos := 0 }

/-- Replace the client object with index `i`, if there is one. -/
def updateClient (i : Nat) (f : MqttClient → MqttClient) (clients : List MqttClient) :
    List MqttClient :=
  match clients.get? i with
  | some c => clients.set i (f c)
  | none => clients

/-- The call `client.end(true)`; it throws when `endThrows`. -/
def endCall (endThrows : Bool) (client : Nat) : Action :=
  fun w =>
    if endThrows then (w, true)
    else ({ w with clients :=
              updateClient client (fun c => { c with endCalled := true }) w.clients }, false)

/-- The call `clearInterval(handle)`. -/
def clearInterval (handle : Nat) (w : Dashboard) : Dashboard :=
  { w with intervals := w.intervals.filter (fun h => h != handle) }

/-- The statement `if (c.heartbeatInterval) clearInterval(c.heartbeatInterval)` of lines
305-307, 319-321 and 447-449 for the client with index `client`; the handle
`0` is falsy. -/
def clearHeartbeat (client : Nat) (w : Dashboard) : Dashboard :=
  match w.clients.get? client with
  | some c =>
    match c.heartbeatInterval with
    | some h => if h != 0 then clearInterval h w else w
    | none => w
  | none => w

/-- The handler `handleBeforeUnload` (lines 406-420). -/
def handleBeforeUnload (throwsOn : PublishFailures) (endThrows : Bool) (w : Dashboard) :
    Dashboard :=
  let w1 := { w with localStorage := releaseSession w.localStorage }
  if clientActive w1 then
    match w1.clientRef with
    | some c =>
      (tryCatch
        ((clearRetainedMessages throwsOn (some c)).andThen
          ((publish throwsOn offlineAnnouncement).andThen (endCall endThrows c))) w1).1
    | none => w1
  else w1

/-- The cleanup returned by the mount effect (lines 429-472).  The timer that
would call `connectToMqtt` 500 ms after mount is not part of the state; the
delayed `end(true)` of lines 458-460 is left as a pending timeout. -/
def unmountCleanup (throwsOn : PublishFailures) (w : Dashboard) : Dashboard :=
  let w2 :=
    if clientActive w then
      match w.clientRef with
      | some c =>
        let w1 :=
          (tryCatch
            ((Action.ok (clearHeartbeat c)).andThen
              ((clearRetainedMessages throwsOn (some c)).andThen
                ((publish throwsOn offlineAnnouncement).andThen
                  (Action.ok (fun s =>
                    { s with timerCount := s.timerCount + 1,
                             timeouts := s.timeouts ++ [Timeout.endClient c] }))))) w).1
        { w1 with localStorage := releaseSession w1.localStorage,
                  clientRef := none, client := none }
      | none => w
    else w
  { w2 with connectionAttemptRef := false }

/-- The action leaves `localStorage` as it found it, whether or not it throws. -/
def Action.KeepsStore (a : Action) : Prop :=
  ∀ w : Dashboard, (a w).1.localStorage = w.localStorage

/-! ## The transport event handlers (lines 169-223 and 286-324) -/

/-- The `connect` handler (lines 169-223) of the client with index `client`.
The interval of lines 177-183 gets the next timer handle; when the `publish`
of line 189 throws, the exception leaves the handler before the two timeouts
are set. -/
def onConnect (throwsOn : PublishFailures) (client : Nat) (w : Dashboard) : Dashboard :=
  let w1 := { w with connectionStatus := "Connected", client := some client,
                     clientRef := some client, connectionAttemptRef := false }
  let h := w1.timerCount + 1
  let w2 := { w1 with timerCount := h, intervals := w1.intervals ++ [h],
                      clients := updateClient client
                        (fun c => { c with heartbeatInterval := some h }) w1.clients }
  let r := publish throwsOn onlineAnnouncement w2
  if r.2 then r.1
  else { r.1 with timerCount := r.1.timerCount + 2,
                  timeouts := r.1.timeouts ++ [Timeout.stabilize, Timeout.subscribe client] }

/-- The callback of the heartbeat interval with handle `h` (lines 177-183) at
clock value `now`; it does nothing once the interval is cleared. -/
def heartbeatTick (now : Nat) (h : Nat) (w : Dashboard) : Dashboard :=
  if h ∈ w.intervals then
    if clientActive w then
      { w with localStorage := setItem HEARTBEAT_KEY (timestampString now) w.localStorage }
    else clearInterval h w
  else w

/-- The callback of the stabilisation timeout (lines 192-194); it runs once
for each such timeout that is pending. -/
def onStabilize (w : Dashboard) : Dashboard :=
  if Timeout.stabilize ∈ w.timeouts then
    { w with isStableConnection := true, timeouts := w.timeouts.erase Timeout.stabilize }
  else w

/-- The callback of the delayed subscription (lines 201-222) for a client:
one `subscribe` call per entry of `mqttConfig.subscribeTopics` when the client
is connected. -/
def onSubscribeTimeout (client : Nat) (w : Dashboard) : Dashboard :=
  if Timeout.subscribe client ∈ w.timeouts then
    let w1 := { w with timeouts := w.timeouts.erase (Timeout.subscribe client) }
    match w1.clients.get? client with
    | some c =>
      if c.connected then
        { w1 with subscriptions :=
            w1.subscriptions ++ mqttConfig.subscribeTopics.map (fun topic => (client, topic)) }
      else w1
    | none => w1
  else w

/-- The `offline` handler (lines 286-290). -/
def onOffline (w : Dashboard) : Dashboard :=
  { w with connectionStatus := "Offline", isStableConnection := false }

/-- The `reconnect` handler (lines 292-296). -/
def onReconnect (w : Dashboard) : Dashboard :=
  { w with connectionStatus := "Reconnecting...", isStableConnection := false }

/-- The `close` handler (lines 298-310) of the client with index `client`. -/
def onClose (client : Nat) (w : Dashboard) : Dashboard :=
  let w1 := { w with connectionStatus := "Disconnected", isStableConnection := false,
                     connectionAttemptRef := false }
  let w2 := clearHeartbeat client w1
  { w2 with localStorage := releaseSession w2.localStorage, clientRef := none }

/-- The `disconnect` handler (lines 312-324) of the client with index `client`. -/
def onDisconnect (client : Nat) (w : Dashboard) : Dashboard :=
  let w1 := { w with connectionStatus := "Disconnected", isStableConnection := false,
                     connectionAttemptRef := false }
  let w2 := clearHeartbeat client w1
  { w2 with localStorage := releaseSession w2.localStorage, clientRef := none }

/-- The state the specification calls `Reconnecting`. -/
def isReconnecting (w : Dashboard) : Bool := w.connectionStatus == "Reconnecting..."

/-- The events that drive the connection status and the stable flag, for the
one client (index 0) that `connectToMqtt` created. -/
inductive ManagerEvent where
  | connectAcknowledged
  | stabilizationTimerFired
  | error (e : JSError)
  | offline
  | reconnect
  | close
  | disconnect
  deriving DecidableEq, Repr

/-- The handler that an event runs; a `publish` that never throws is assumed
for the connect acknowledgement. -/
def ManagerEvent.apply (w : Dashboard) : ManagerEvent → Dashboard
  | ManagerEvent.connectAcknowledged => onConnect (fun _ _ => false) 0 w
  | ManagerEvent.stabilizationTimerFired => onStabilize w
  | ManagerEvent.error e => onError e w
  | ManagerEvent.offline => onOffline w
  | ManagerEvent.reconnect => onReconnect w
  | ManagerEvent.close => onClose 0 w
  | ManagerEvent.disconnect => onDisconnect 0 w

/-- The dashboard after a sequence of events, oldest first. -/
def runEvents (w : Dashboard) (evs : List ManagerEvent) : Dashboard :=
  evs.foldl ManagerEvent.apply w

/-- Every stabilisation timer of the sequence fires while the connection
status is `'Connected'`. -/
def timersFireWhileConnected (w : Dashboard) : List ManagerEvent → Bool
  | [] => true
  | e :: es =>
    (match e with
      | ManagerEvent.stabilizationTimerFired => w.connectionStatus == "Connected"
      | _ => true) &&
    timersFireWhileConnected (e.apply w) es

/-- The connection is lost one second after the acknowledgement and the
stabilisation timer set by that acknowledgement fires two seconds later. -/
def lateTimerTrace : List ManagerEvent :=
  [ManagerEvent.connectAcknowledged, ManagerEvent.close,
   ManagerEvent.stabilizationTimerFired]

/-! ## Inbound messages (lines 40-50 and 225-267) -/

/-- The `sensorData` state (lines 41-46): the latest raw payload per sensor
topic. -/
structure SensorData where
  temperature : String
  humidity : String
  mq135 : String
  led : String
  deriving DecidableEq, Repr

/-- The state written by the `message` handler: `sensorData`,
`displayMessage`, `emailSummary` and `historicalData`. -/
structure Telemetry where
  sensorData : SensorData
  displayMessage : String
  emailSummary : String
  historicalData : HistoricalData
  deriving DecidableEq, Repr

/-- The initial `useState` values of lines 41-58. -/
def initialTelemetry : Telemetry :=
  { sensorData := { temperature := "--", humidity := "--", mq135 := "--", led := "#000000" },
    displayMessage := "Waiting for display message...",
    emailSummary := "No email summary received yet.",
    historicalData := emptyHistory }

/-- The number `parseInt(payload)` as stored in the history. -/
def parseIntNumber (payload : String) : JSNum :=
  match parseInt payload with
  | some i => JSNum.num i
  | none => JSNum.nan

/-- The series key and the parsed value that the first `switch` of the
`message` handler passes to `updateHistoricalData` (lines 233-245), if the
topic is one of the three numeric ones.  The global `parseFloat` is an
argument: the handler only hands its result on. -/
def numericReading (parseFloat : String → JSNum) (topic payload : String) :
    Option (SensorType × JSNum) :=
  if topic = "esp32/sensors/temperature" then
    some (SensorType.temperature, parseFloat payload)
  else if topic = "esp32/sensors/humidity" then
    some (SensorType.humidity, parseFloat payload)
  else if topic = "esp32/sensors/mq135" then
    some (SensorType.mq135, parseIntNumber payload)
  else none

/-- The `message` handler (lines 225-267) for one message; `timeLabel` is the
label that `updateHistoricalData` computes from the clock. -/
def onMessage (parseFloat : String → JSNum) (timeLabel : String) (topic payload : String)
    (s : Telemetry) : Telemetry :=
  let s1 : Telemetry :=
    if topic = "esp32/sensors/temperature" then
      { s with sensorData := { s.sensorData with temperature := payload },
               historicalData :=
                 updateHistoricalData SensorType.temperature (parseFloat payload) timeLabel
                   s.historicalData }
    else if topic = "esp32/sensors/humidity" then
      { s with sensorData := { s.sensorData with humidity := payload },
               historicalData :=
                 updateHistoricalData SensorType.humidity (parseFloat payload) timeLabel
                   s.historicalData }
    else if topic = "esp32/sensors/mq135" then
      { s with sensorData := { s.sensorData with mq135 := payload },
               historicalData :=
                 updateHistoricalData SensorType.mq135 (parseIntNumber payload) timeLabel
                   s.historicalData }
    else if topic = "esp32/sensors/led" then
      { s with sensorData := { s.sensorData with led := payload } }
    else s
  if topic = "esp32/display" then { s1 with displayMessage := payload }
  else if topic = "esp32/email_summary" then { s1 with emailSummary := payload }
  else s1

/-- A stand-in for `parseFloat` on payloads without fraction or exponent: the
signed decimal integer at the start of the payload, NaN when there is none. -/
def integerParseFloat (payload : String) : JSNum :=
  let signed := stripSign (payload.data.dropWhile isWhiteSpace)
  let ds := digitPrefix 10 signed.2
  if ds.isEmpty then JSNum.nan
  else
    let m : Nat := ds.foldl (fun acc d => acc * 10 + d) 0
    JSNum.num (if signed.1 then - (m : Int) else (m : Int))

/-- Telemetry after two readings in the second `10:00:00`. -/
def sampleTelemetry : Telemetry :=
  onMessage integerParseFloat "10:00:00" "esp32/sensors/humidity" "60"
    (onMessage integerParseFloat "10:00:00" "esp32/sensors/temperature" "21" initialTelemetry)

/-- Two readings whose labels come in decreasing order, as around midnight or
after the clock is set back. -/
def backwardUpdates : List Update :=
  [⟨SensorType.temperature, JSNum.num 21, "10:00:05"⟩,
   ⟨SensorType.temperature, JSNum.num 22, "10:00:01"⟩]

/-- Three readings in clock order, the first two within the second
`10:00:00`. -/
def forwardUpdates : List Update :=
  [⟨SensorType.temperature, JSNum.num 21, "10:00:00"⟩,
   ⟨SensorType.humidity, JSNum.num 60, "10:00:00"⟩,
   ⟨SensorType.temperature, JSNum.num 22, "10:00:01"⟩]

/-! ## Nulls in a series -/

/-- The null entries of a series form a prefix: once an index holds a number,
every later index of the series holds a number. -/
def NullsFirst (l : List (Option JSNum)) : Prop :=
  ∀ (i k : Nat) (x : JSNum), i ≤ k → k < l.length → l.get? i = some (some x) →
    ∃ y : JSNum, l.get? k = some (some y)

/-- The step relation behind `NullsFirst`: a number is followed by a number. -/
def numberStays (a b : Option JSNum) : Prop := a.isSome = true → b.isSome = true

/-- Every number stored in the series is a number proper, not NaN. -/
def NoNaN (l : List (Option JSNum)) : Prop :=
  ∀ x : JSNum, some x ∈ l → isNaN x = false

/-- Humidity is first reported one second after the first temperature
reading. -/
def lateHumidityUpdates : List Update :=
  [⟨SensorType.temperature, JSNum.num 21, "10:00:00"⟩,
   ⟨SensorType.humidity, JSNum.num 60, "10:00:01"⟩,
   ⟨SensorType.temperature, JSNum.num 22, "10:00:02"⟩]

/-! ## Several dashboard instances over one `localStorage` -/

/-- One tab: its dashboard (whose `localStorage` field is read from and
written back to the shared store at every step), whether the page is still
loaded, whether `connectToMqtt` has passed its guards (lines 131-141) and not
yet reached `claimSession` (line 144), and, as bookkeeping, the clock value at
which this tab last wrote the lease (by `claimSession` or by a heartbeat
tick). -/
structure Tab where
  dash : Dashboard
  alive : Bool
  pending : Bool
  lastWrite : Nat

/-- A tab whose dashboard was just rendered. -/
def freshTab : Tab :=
  { dash := initialDashboard [], alive := true, pending := false, lastWrite := 0 }

/-- The tabs `0, ..., size - 1` of one browser and the `localStorage` they
share. -/
structure Browser where
  store : Store
  size : Nat
  tabs : Nat → Tab

/-- Freshly rendered tabs over a given store. -/
def Browser.start (store : Store) (size : Nat) : Browser :=
  { store := store, size := size, tabs := fun _ => freshTab }

/-- The dashboard of a tab as its code sees it: with the shared store as its
`localStorage`. -/
def Browser.view (s : Browser) (i : Nat) : Dashboard :=
  { (s.tabs i).dash with localStorage := s.store }

/-- What happens in the tabs, each at a clock value `t`: a call of
`connectToMqtt` that runs to completion; the same call split in two, its
guards (lines 131-141) and the rest (lines 143-167), so that other tabs may
run in between; a connect acknowledgement, a heartbeat interval firing and a
close event of a client; and the page unload. -/
inductive TabEvent where
  | connect (tab t : Nat)
  | guards (tab t : Nat)
  | proceed (tab t : Nat)
  | acknowledged (tab client t : Nat)
  | tick (tab handle t : Nat)
  | closed (tab client t : Nat)
  | unload (tab t : Nat)
  deriving DecidableEq, Repr

/-- The tab in which an event happens. -/
def TabEvent.tab : TabEvent → Nat
  | TabEvent.connect i _ => i
  | TabEvent.guards i _ => i
  | TabEvent.proceed i _ => i
  | TabEvent.acknowledged i _ _ => i
  | TabEvent.tick i _ _ => i
  | TabEvent.closed i _ _ => i
  | TabEvent.unload i _ => i

/-- The clock value at which an event happens. -/
def TabEvent.time : TabEvent → Nat
  | TabEvent.connect _ t => t
  | TabEvent.guards _ t => t
  | TabEvent.proceed _ t => t
  | TabEvent.acknowledged _ _ t => t
  | TabEvent.tick _ _ t => t
  | TabEvent.closed _ _ t => t
  | TabEvent.unload _ t => t

/-- What the library does to a client object before it emits `connect`. -/
def markConnected (client : Nat) (w : Dashboard) : Dashboard :=
  { w with
    clients := updateClient client
                 (fun c => { c with connected := true, disconnected := false }) w.clients }

/-- What the library does to a client object before it emits `close`. -/
def markClosed (client : Nat) (w : Dashboard) : Dashboard :=
  { w with clients := updateClient client (fun c => { c with connected := false }) w.clients }

/-- The code that an event runs in its tab, on the dashboard `w` as the tab
sees it; `mqtt.connect`, `publish` and `end` do not throw here.  The result
records a lease write in `lastWrite`. -/
def TabEvent.run (e : TabEvent) (tab : Tab) (w : Dashboard) : Tab :=
  match e with
  | TabEvent.connect _ t =>
    { tab with dash := connectToMqtt t false w,
               lastWrite := if admission t w = Admission.admitted then t else tab.lastWrite }
  | TabEvent.guards _ t =>
    match admission t w with
    | Admission.conflict =>
      { tab with dash := { w with connectionStatus := "Another Tab Active" } }
    | Admission.busy => { tab with dash := w }
    | Admission.admitted => { tab with dash := w, pending := true }
  | TabEvent.proceed _ t =>
    if tab.pending then
      { tab with dash := openTransport false (claimAndMark t w), pending := false,
                 lastWrite := t }
    else { tab with dash := w }
  | TabEvent.acknowledged _ client _ =>
    { tab with dash := onConnect (fun _ _ => false) client (markConnected client w) }
  | TabEvent.tick _ handle t =>
    { tab with dash := heartbeatTick t handle w,
               lastWrite := if handle ∈ w.intervals ∧ clientActive w = true then t
                            else tab.lastWrite }
  | TabEvent.closed _ client _ =>
    { tab with dash := onClose client (markClosed client w) }
  | TabEvent.unload _ _ =>
    { tab with dash := handleBeforeUnload (fun _ _ => false) false w, alive := false }

/-- Tab `i` becomes `tab`, and the store that its dashboard holds becomes the
shared store. -/
def Browser.put (s : Browser) (i : Nat) (tab : Tab) : Browser :=
  { s with store := tab.dash.localStorage,
           tabs := fun j => if j = i then tab else s.tabs j }

/-- One event in the browser: the tab runs its code on the shared store and
the store it leaves is what every tab sees next.  Events of tabs that do not
exist or were unloaded do nothing. -/
def Browser.step (s : Browser) (e : TabEvent) : Browser :=
  if e.tab < s.size ∧ (s.tabs e.tab).alive = true then
    s.put e.tab (e.run (s.tabs e.tab) (s.view e.tab))
  else s

/-- The browser after a sequence of events, oldest first. -/
def Browser.run (s : Browser) (evs : List TabEvent) : Browser :=
  evs.foldl Browser.step s

/-- A dashboard holds a session: its connection attempt is in flight (line
145) or its client exists and is not disconnected (the test of lines 138 and
178). -/
def holdsSession (w : Dashboard) : Bool :=
  w.connectionAttemptRef || clientActive w

/-- Tab `i` exists, is loaded and holds a session. -/
def Browser.holds (s : Browser) (i : Nat) : Bool :=
  decide (i < s.size) && (s.tabs i).alive && holdsSession (s.tabs i).dash

/-- The premise of the claim as written: the heartbeat ticks of each tab are
less than 15000 ms apart; `last` gives the latest tick of each tab so far. -/
def ticksPacedFrom (last : Nat → Option Nat) : List TabEvent → Bool
  | [] => true
  | TabEvent.tick i _ t :: es =>
    (match last i with
      | some u => decide (t < u + 15000)
      | none => true) &&
    ticksPacedFrom (fun j => if j = i then some t else last j) es
  | _ :: es => ticksPacedFrom last es

/-- The heartbeat ticks of each tab are less than 15000 ms apart. -/
def ticksPaced (evs : List TabEvent) : Bool :=
  ticksPacedFrom (fun _ => none) evs

/-- Every `connectToMqtt` call runs to completion before another tab runs:
the sequence holds no split call. -/
def atomicAdmissions (evs : List TabEvent) : Bool :=
  evs.all (fun e =>
    match e with
    | TabEvent.guards _ _ => false
    | TabEvent.proceed _ _ => false
    | _ => true)

/-- At each event, every tab that holds a session last wrote the lease (by
its claim or by a heartbeat tick) less than 15000 ms before. -/
def leaseKeptUp (s : Browser) : List TabEvent → Bool
  | [] => true
  | e :: es =>
    (List.range s.size).all
      (fun j => !s.holds j || decide (e.time < (s.tabs j).lastWrite + 15000)) &&
    leaseKeptUp (s.step e) es

/-- No tab releases the lease, by its close handler or by its unload handler,
while another tab holds a session. -/
def releasesOwn (s : Browser) : List TabEvent → Bool
  | [] => true
  | e :: es =>
    (match e with
      | TabEvent.closed i _ _ => (List.range s.size).all (fun j => !s.holds j || j == i)
      | TabEvent.unload i _ => (List.range s.size).all (fun j => !s.holds j || j == i)
      | _ => true) &&
    releasesOwn (s.step e) es

/-- Every connect acknowledgement answers a connection attempt that is in
flight; the transport does not reconnect by itself after a close. -/
def answersAttempt (s : Browser) : List TabEvent → Bool
  | [] => true
  | e :: es =>
    (match e with
      | TabEvent.acknowledged i _ _ => (s.tabs i).dash.connectionAttemptRef
      | _ => true) &&
    answersAttempt (s.step e) es

/-- Tab 0 connects at 0; tab 1, which never connected, is unloaded at 1000 and
its unload handler calls `releaseSession`; tab 2 connects at 2000. -/
def strayReleaseTrace : List TabEvent :=
  [TabEvent.connect 0 0, TabEvent.unload 1 1000, TabEvent.connect 2 2000]

/-- Tab 0 connects at 0 and is acknowledged only at 6000, so its first
heartbeat tick is due at 16000; tab 1 connects at 15500; the ticks of tab 0
then come 10 s apart. -/
def slowConnectTrace : List TabEvent :=
  [TabEvent.connect 0 0, TabEvent.acknowledged 0 0 6000, TabEvent.connect 1 15500,
   TabEvent.tick 0 1 16000, TabEvent.tick 0 1 26000]

/-- Tab 0 connects at 0, is acknowledged at 1000 and loses the connection at
2000; the transport reconnects by itself and is acknowledged at 12000; tab 1
connects at 13000. -/
def reconnectTrace : List TabEvent :=
  [TabEvent.connect 0 0, TabEvent.acknowledged 0 0 1000, TabEvent.closed 0 0 2000,
   TabEvent.acknowledged 0 0 12000, TabEvent.connect 1 13000]

/-- Tabs 0 and 1 both pass the guards of `connectToMqtt` before either of
them claims. -/
def raceTrace : List TabEvent :=
  [TabEvent.guards 0 0, TabEvent.guards 1 1, TabEvent.proceed 0 2, TabEvent.proceed 1 3]

/-- Tab 0 connects, is acknowledged and keeps its heartbeat up; tab 1 is
refused at 12000; tab 0 is closed at 25000 and tab 1 connects at 26000. -/
def handoverTrace : List TabEvent :=
  [TabEvent.connect 0 0, TabEvent.acknowledged 0 0 1000, TabEvent.tick 0 1 11000,
   TabEvent.connect 1 12000, TabEvent.tick 0 1 21000, TabEvent.closed 0 0 25000,
   TabEvent.connect 1 26000]

/-- The invariant behind mutual exclusion: whenever a tab holds a session, the
store holds the marker and the heartbeat that this tab last wrote, and no
other tab holds a session. -/
def Browser.Exclusive (s : Browser) : Prop :=
  ∀ i : Nat, s.holds i = true →
    (getItem s.store SESSION_KEY = some "active" ∧
      getItem s.store HEARTBEAT_KEY = some (timestampString (s.tabs i).lastWrite)) ∧
    ∀ j : Nat, s.holds j = true → j = i

/-! ## Theorems: the chart history -/

theorem series_setSeries_same (d : HistoricalData) (k : SensorType)
    (xs : List (Option JSNum)) : (d.setSeries k xs).series k = xs := by
  cases k <;> rfl

theorem series_setSeries_other (d : HistoricalData) (k j : SensorType)
    (xs : List (Option JSNum)) (hne : j ≠ k) :
    (d.setSeries k xs).series j = d.series j := by
  cases k <;> cases j <;> first | rfl | exact absurd rfl hne

theorem labels_setSeries (d : HistoricalData) (k : SensorType)
    (xs : List (Option JSNum)) : (d.setSeries k xs).labels = d.labels := by
  cases k <;> rfl

theorem labels_writeValue (k : SensorType) (v : JSNum) (d : HistoricalData) :
    (writeValue k v d).labels = d.labels := by
  unfold writeValue
  split
  · exact labels_setSeries _ _ _
  · rfl

theorem series_writeValue_same (k : SensorType) (v : JSNum) (d : HistoricalData) :
    (writeValue k v d).series k =
      (d.series k).set ((d.series k).length - 1) (some v) := by
  unfold writeValue
  split
  · exact series_setSeries_same _ _ _
  · rename_i h
    have h0 : d.series k = [] := List.length_eq_zero.mp (by omega)
    simp [h0]

theorem series_writeValue_other (k j : SensorType) (v : JSNum) (d : HistoricalData)
    (hne : j ≠ k) : (writeValue k v d).series j = d.series j := by
  unfold writeValue
  split
  · exact series_setSeries_other _ _ _ _ hne
  · rfl

theorem length_series_writeValue (k j : SensorType) (v : JSNum) (d : HistoricalData) :
    ((writeValue k v d).series j).length = (d.series j).length := by
  by_cases hjk : j = k
  · subst hjk
    rw [series_writeValue_same, List.length_set]
  · rw [series_writeValue_other k j v d hjk]

theorem aligned_iff_series (d : HistoricalData) :
    Aligned d ↔ ∀ j : SensorType, (d.series j).length = d.labels.length := by
  constructor
  · intro h j
    cases j
    · exact h.1
    · exact h.2.1
    · exact h.2.2
  · intro h
    exact ⟨h SensorType.temperature, h SensorType.humidity, h SensorType.mq135⟩

theorem aligned_writeValue (k : SensorType) (v : JSNum) (d : HistoricalData)
    (h : Aligned d) : Aligned (writeValue k v d) := by
  rw [aligned_iff_series] at h ⊢
  intro j
  rw [length_series_writeValue, labels_writeValue]
  exact h j

theorem aligned_addNewPoint (t : String) (d : HistoricalData) (h : Aligned d) :
    Aligned (addNewPoint t d) := by
  unfold addNewPoint
  split
  · obtain ⟨h1, h2, h3⟩ := h
    refine ⟨?_, ?_, ?_⟩ <;> simp [*]
  · exact h

theorem aligned_evictOldest (d : HistoricalData) (h : Aligned d) :
    Aligned (evictOldest d) := by
  unfold evictOldest
  split
  · obtain ⟨h1, h2, h3⟩ := h
    refine ⟨?_, ?_, ?_⟩ <;> simp [*]
  · exact h

theorem aligned_updateHistoricalData (k : SensorType) (v : JSNum) (t : String)
    (d : HistoricalData) (h : Aligned d) : Aligned (updateHistoricalData k v t d) := by
  unfold updateHistoricalData beforeEviction
  split
  · exact h
  · exact aligned_evictOldest _ (aligned_writeValue _ _ _ (aligned_addNewPoint _ _ h))

theorem length_labels_addNewPoint_le (t : String) (d : HistoricalData) :
    (addNewPoint t d).labels.length ≤ d.labels.length + 1 := by
  unfold addNewPoint
  split
  · simp
  · omega

theorem length_labels_evictOldest_le (d : HistoricalData) (n : Nat)
    (hn : MAX_DATA_POINTS ≤ n) (h : d.labels.length ≤ n + 1) :
    (evictOldest d).labels.length ≤ n := by
  unfold evictOldest
  split
  · simp only [List.length_drop]
    omega
  · omega

theorem length_labels_updateHistoricalData_le (k : SensorType) (v : JSNum) (t : String)
    (d : HistoricalData) (h : d.labels.length ≤ MAX_DATA_POINTS) :
    (updateHistoricalData k v t d).labels.length ≤ MAX_DATA_POINTS := by
  unfold updateHistoricalData beforeEviction
  split
  · exact h
  · apply length_labels_evictOldest_le _ _ (Nat.le_refl _)
    rw [labels_writeValue]
    exact Nat.le_trans (length_labels_addNewPoint_le t d) (Nat.succ_le_succ h)

theorem runUpdates_append (us vs : List Update) (d : HistoricalData) :
    runUpdates (us ++ vs) d = runUpdates vs (runUpdates us d) := by
  simp [runUpdates, List.foldl_append]

theorem runUpdates_cons (u : Update) (us : List Update) (d : HistoricalData) :
    runUpdates (u :: us) d =
      runUpdates us (updateHistoricalData u.sensorType u.value u.timeLabel d) := rfl

theorem aligned_runUpdates (us : List Update) (d : HistoricalData) (h : Aligned d) :
    Aligned (runUpdates us d) := by
  induction us generalizing d with
  | nil => exact h
  | cons u us ih =>
    rw [runUpdates_cons]
    exact ih _ (aligned_updateHistoricalData _ _ _ _ h)

theorem length_labels_runUpdates_le (us : List Update) (d : HistoricalData)
    (h : d.labels.length ≤ MAX_DATA_POINTS) :
    (runUpdates us d).labels.length ≤ MAX_DATA_POINTS := by
  induction us generalizing d with
  | nil => exact h
  | cons u us ih =>
    rw [runUpdates_cons]
    exact ih _ (length_labels_updateHistoricalData_le _ _ _ _ h)

theorem aligned_emptyHistory : Aligned emptyHistory := ⟨rfl, rfl, rfl⟩

/-- C1: starting from the empty history, after any finite sequence of
`updateHistoricalData` calls (any sensor key, any value, NaN included, any time
label) the history has at most `MAX_DATA_POINTS = 20` slots: the label array
and each of the three sensor arrays have at most 20 entries. -/
theorem history_length_le_max (us : List Update) :
    MAX_DATA_POINTS = 20 ∧
    (runUpdates us emptyHistory).labels.length ≤ 20 ∧
    (runUpdates us emptyHistory).temperature.length ≤ 20 ∧
    (runUpdates us emptyHistory).humidity.length ≤ 20 ∧
    (runUpdates us emptyHistory).mq135.length ≤ 20 := by
  have hl : (runUpdates us emptyHistory).labels.length ≤ 20 :=
    length_labels_runUpdates_le us emptyHistory (by decide)
  obtain ⟨h1, h2, h3⟩ := aligned_runUpdates us emptyHistory aligned_emptyHistory
  exact ⟨rfl, hl, h1 ▸ hl, h2 ▸ hl, h3 ▸ hl⟩

theorem placeholder_eq_getLast (a : List (Option JSNum)) :
    placeholder a = a.getLast?.getD none := by
  unfold placeholder
  split
  · rw [List.getLast?_eq_getElem?, List.getD_eq_getElem?_getD]
  · rename_i h
    have h0 : a = [] := List.length_eq_zero.mp (by omega)
    simp [h0]

theorem shouldAddNewPoint_eq_true (d : HistoricalData) (t : String)
    (hnew : d.labels = [] ∨ d.labels.getLast? ≠ some t) : shouldAddNewPoint d t = true := by
  unfold shouldAddNewPoint
  rcases hnew with h | h
  · simp [h]
  · rw [List.getLast?_eq_getElem?] at h
    simp [h]

theorem shouldAddNewPoint_eq_false (d : HistoricalData) (t : String)
    (hne : d.labels ≠ []) (hlast : d.labels.getLast? = some t) :
    shouldAddNewPoint d t = false := by
  unfold shouldAddNewPoint
  rw [List.getLast?_eq_getElem?] at hlast
  have : d.labels.length ≠ 0 := fun h => hne (List.length_eq_zero.mp h)
  simp [hlast, this]

theorem set_last_concat {α : Type} (l : List α) (a x : α) :
    (l ++ [a]).set ((l ++ [a]).length - 1) x = l ++ [x] := by
  simp

theorem set_last_eq_dropLast_concat {α : Type} (l : List α) (x : α) (hne : l ≠ []) :
    l.set (l.length - 1) x = l.dropLast ++ [x] := by
  obtain ⟨l', a, rfl⟩ : ∃ l' a, l = l' ++ [a] :=
    ⟨l.dropLast, l.getLast hne, (List.dropLast_append_getLast hne).symm⟩
  rw [set_last_concat, List.dropLast_concat]

theorem series_addNewPoint (d : HistoricalData) (t : String) (j : SensorType)
    (hnew : shouldAddNewPoint d t = true) :
    (addNewPoint t d).series j = d.series j ++ [placeholder (d.series j)] := by
  unfold addNewPoint
  rw [if_pos hnew]
  cases j <;> rfl

theorem labels_addNewPoint (d : HistoricalData) (t : String)
    (hnew : shouldAddNewPoint d t = true) : (addNewPoint t d).labels = d.labels ++ [t] := by
  unfold addNewPoint
  rw [if_pos hnew]

/-- C2: on a history whose four arrays have equal length, a call
`updateHistoricalData(K, v, label)` with `v` not NaN, made when the history is
empty or its last label differs from `label`, appends exactly one slot before
any eviction: the label array gains `label`, the array of `K` gains `v`, and
the array of every other key gains that key's previous last entry, or `null`
when there was none.  The call's result is that history after the eviction
step, and on the empty history `(temperature, 21.5, "10:00:00")` gives the
single slot `{temperature: 21.5, humidity: null, mq135: null}`. -/
theorem forward_fill_on_new_label (d : HistoricalData) (k : SensorType) (v : JSNum)
    (t : String) (hal : Aligned d) (hv : isNaN v = false)
    (hnew : d.labels = [] ∨ d.labels.getLast? ≠ some t) :
    (beforeEviction k v t d).labels = d.labels ++ [t] ∧
    (beforeEviction k v t d).series k = d.series k ++ [some v] ∧
    (∀ j : SensorType, j ≠ k →
      (beforeEviction k v t d).series j = d.series j ++ [(d.series j).getLast?.getD none]) ∧
    (d.labels = [] → ∀ j : SensorType, j ≠ k →
      (beforeEviction k v t d).series j = [none]) ∧
    updateHistoricalData k v t d = evictOldest (beforeEviction k v t d) ∧
    updateHistoricalData SensorType.temperature (JSNum.num 21.5) "10:00:00" emptyHistory =
      { labels := ["10:00:00"], temperature := [some (JSNum.num 21.5)],
        humidity := [none], mq135 := [none] } := by
  have hs := shouldAddNewPoint_eq_true d t hnew
  have hother : ∀ j : SensorType, j ≠ k →
      (beforeEviction k v t d).series j = d.series j ++ [(d.series j).getLast?.getD none] := by
    intro j hj
    unfold beforeEviction
    rw [series_writeValue_other k j v _ hj, series_addNewPoint d t j hs,
      placeholder_eq_getLast]
  refine ⟨?_, ?_, hother, ?_, ?_, ?_⟩
  · unfold beforeEviction
    rw [labels_writeValue, labels_addNewPoint d t hs]
  · unfold beforeEviction
    rw [series_writeValue_same, series_addNewPoint d t k hs, set_last_concat]
  · intro hempty j hj
    have hlen : (d.series j).length = 0 := by
      rw [(aligned_iff_series d).mp hal j, hempty]
      rfl
    rw [hother j hj, List.length_eq_zero.mp hlen]
    rfl
  · unfold updateHistoricalData
    rw [hv]
    rfl
  · rfl

/-- Witness for C2 on a one-slot history: a humidity reading at a new label
copies the temperature `21.5` and the `null` of `mq135` forward. -/
theorem forward_fill_on_new_label_witness :
    Aligned sampleHistory ∧ sampleHistory.labels.getLast? ≠ some "10:00:01" ∧
    (beforeEviction SensorType.humidity (JSNum.num 61) "10:00:01" sampleHistory).labels
      = ["10:00:00", "10:00:01"] ∧
    (beforeEviction SensorType.humidity (JSNum.num 61) "10:00:01" sampleHistory).humidity
      = [some (JSNum.num 60), some (JSNum.num 61)] ∧
    (beforeEviction SensorType.humidity (JSNum.num 61) "10:00:01" sampleHistory).temperature
      = [some (JSNum.num 21.5), some (JSNum.num 21.5)] ∧
    (beforeEviction SensorType.humidity (JSNum.num 61) "10:00:01" sampleHistory).mq135
      = [none, none] :=
  have h := forward_fill_on_new_label sampleHistory SensorType.humidity (JSNum.num 61)
    "10:00:01" ⟨rfl, rfl, rfl⟩ rfl (Or.inr (by decide))
  ⟨⟨rfl, rfl, rfl⟩, by decide, h.1, h.2.1,
    h.2.2.1 SensorType.temperature (by decide), h.2.2.1 SensorType.mq135 (by decide)⟩

theorem evictOldest_of_le (d : HistoricalData) (h : d.labels.length ≤ MAX_DATA_POINTS) :
    evictOldest d = d := by
  unfold evictOldest
  rw [if_neg (by omega)]

theorem setSeries_setSeries (d : HistoricalData) (k : SensorType)
    (xs ys : List (Option JSNum)) : (d.setSeries k xs).setSeries k ys = d.setSeries k ys := by
  cases k <;> rfl

theorem updateHistoricalData_same_label (d : HistoricalData) (k : SensorType) (v : JSNum)
    (t : String) (hne : d.labels ≠ []) (hal : Aligned d)
    (hlen : d.labels.length ≤ MAX_DATA_POINTS) (hlast : d.labels.getLast? = some t)
    (hv : isNaN v = false) :
    updateHistoricalData k v t d = d.setSeries k ((d.series k).dropLast ++ [some v]) := by
  have hk : d.series k ≠ [] := by
    intro h0
    have := (aligned_iff_series d).mp hal k
    rw [h0] at this
    exact hne (List.length_eq_zero.mp this.symm)
  have hpos : 0 < (d.series k).length := List.length_pos.mpr hk
  have hadd : addNewPoint t d = d := by
    unfold addNewPoint
    rw [shouldAddNewPoint_eq_false d t hne hlast]
    rfl
  have hw : writeValue k v d = d.setSeries k ((d.series k).dropLast ++ [some v]) := by
    unfold writeValue
    rw [if_pos hpos, set_last_eq_dropLast_concat _ _ hk]
  unfold updateHistoricalData beforeEviction
  rw [hv, hadd, hw]
  exact evictOldest_of_le _ (by rw [labels_setSeries]; exact hlen)

theorem same_label_update_of_bounded (d : HistoricalData) (k : SensorType)
    (v : JSNum) (t : String) (hne : d.labels ≠ []) (hal : Aligned d)
    (hlen : d.labels.length ≤ MAX_DATA_POINTS) (hlast : d.labels.getLast? = some t)
    (hv : isNaN v = false) :
    (updateHistoricalData k v t d).labels = d.labels ∧
    (∀ j : SensorType, j ≠ k → (updateHistoricalData k v t d).series j = d.series j) ∧
    (updateHistoricalData k v t d).series k = (d.series k).dropLast ++ [some v] ∧
    ((updateHistoricalData k v t d).series k).length = (d.series k).length ∧
    (∀ w : JSNum, isNaN w = false →
      updateHistoricalData k v t (updateHistoricalData k w t d) =
        updateHistoricalData k v t d) := by
  have hk : d.series k ≠ [] := by
    intro h0
    have := (aligned_iff_series d).mp hal k
    rw [h0] at this
    exact hne (List.length_eq_zero.mp this.symm)
  have hu := updateHistoricalData_same_label d k v t hne hal hlen hlast hv
  refine ⟨?_, ?_, ?_, ?_, ?_⟩
  · rw [hu, labels_setSeries]
  · intro j hj
    rw [hu, series_setSeries_other _ _ _ _ hj]
  · rw [hu, series_setSeries_same]
  · rw [hu, series_setSeries_same, List.length_append, List.length_dropLast]
    have := List.length_pos.mpr hk
    simp only [List.length_singleton]
    omega
  · intro w hw
    have huw := updateHistoricalData_same_label d k w t hne hal hlen hlast hw
    have hne2 : (updateHistoricalData k w t d).labels ≠ [] := by
      rw [huw, labels_setSeries]; exact hne
    have hal2 : Aligned (updateHistoricalData k w t d) :=
      aligned_updateHistoricalData k w t d hal
    have hlen2 : (updateHistoricalData k w t d).labels.length ≤ MAX_DATA_POINTS := by
      rw [huw, labels_setSeries]; exact hlen
    have hlast2 : (updateHistoricalData k w t d).labels.getLast? = some t := by
      rw [huw, labels_setSeries]; exact hlast
    rw [updateHistoricalData_same_label _ k v t hne2 hal2 hlen2 hlast2 hv, hu, huw,
      series_setSeries_same, setSeries_setSeries, List.dropLast_concat]

/-- C3: on every non-empty history reachable from the empty history by
`updateHistoricalData` calls (its four arrays then have equal length) whose
last label equals `label`, `updateHistoricalData(K, v, label)` with `v` not
NaN leaves the number of slots, the label array and the two arrays other than
`K` unchanged and changes the array of `K` only in its last position, which
becomes `v`; of two calls for the same key within one label the later value
is the one kept. -/
theorem same_label_update_overwrites_last (us : List Update) (k : SensorType)
    (v : JSNum) (t : String) (hne : (runUpdates us emptyHistory).labels ≠ [])
    (hlast : (runUpdates us emptyHistory).labels.getLast? = some t)
    (hv : isNaN v = false) :
    Aligned (runUpdates us emptyHistory) ∧
    (updateHistoricalData k v t (runUpdates us emptyHistory)).labels
      = (runUpdates us emptyHistory).labels ∧
    (∀ j : SensorType, j ≠ k →
      (updateHistoricalData k v t (runUpdates us emptyHistory)).series j
        = (runUpdates us emptyHistory).series j) ∧
    (updateHistoricalData k v t (runUpdates us emptyHistory)).series k
      = ((runUpdates us emptyHistory).series k).dropLast ++ [some v] ∧
    ((updateHistoricalData k v t (runUpdates us emptyHistory)).series k).length
      = ((runUpdates us emptyHistory).series k).length ∧
    (∀ w : JSNum, isNaN w = false →
      updateHistoricalData k v t (updateHistoricalData k w t (runUpdates us emptyHistory)) =
        updateHistoricalData k v t (runUpdates us emptyHistory)) := by
  have hal := aligned_runUpdates us emptyHistory aligned_emptyHistory
  have hlen := length_labels_runUpdates_le us emptyHistory (by decide)
  exact ⟨hal, same_label_update_of_bounded _ k v t hne hal hlen hlast hv⟩

/-- Witness for C3: after the two readings of `sampleUpdates`, a second
humidity reading at `10:00:00` replaces `60` by `61` and touches nothing
else. -/
theorem same_label_update_overwrites_last_witness :
    runUpdates sampleUpdates emptyHistory = sampleHistory ∧
    (updateHistoricalData SensorType.humidity (JSNum.num 61) "10:00:00"
      (runUpdates sampleUpdates emptyHistory)).labels = ["10:00:00"] ∧
    (updateHistoricalData SensorType.humidity (JSNum.num 61) "10:00:00"
      (runUpdates sampleUpdates emptyHistory)).humidity = [some (JSNum.num 61)] ∧
    (updateHistoricalData SensorType.humidity (JSNum.num 61) "10:00:00"
      (runUpdates sampleUpdates emptyHistory)).temperature = [some (JSNum.num 21.5)] :=
  have h := same_label_update_overwrites_last sampleUpdates SensorType.humidity
    (JSNum.num 61) "10:00:00" (by decide) (by decide) rfl
  ⟨rfl, h.2.1, h.2.2.2.1, h.2.2.1 SensorType.temperature (by decide)⟩

theorem labels_updateHistoricalData_fresh (d : HistoricalData) (k : SensorType) (v : JSNum)
    (t : String) (hv : isNaN v = false)
    (hnew : d.labels = [] ∨ d.labels.getLast? ≠ some t) :
    (updateHistoricalData k v t d).labels =
      if MAX_DATA_POINTS < d.labels.length + 1 then (d.labels ++ [t]).drop 1
      else d.labels ++ [t] := by
  have hs := shouldAddNewPoint_eq_true d t hnew
  have hpre : (beforeEviction k v t d).labels = d.labels ++ [t] := by
    unfold beforeEviction
    rw [labels_writeValue, labels_addNewPoint d t hs]
  unfold updateHistoricalData
  rw [hv]
  simp only [Bool.false_eq_true, if_false]
  unfold evictOldest
  rw [hpre]
  simp only [List.length_append, List.length_singleton]
  split
  · rfl
  · exact hpre

theorem getLast?_ne_of_not_mem {α : Type} (l : List α) (a : α) (h : a ∉ l) :
    l.getLast? ≠ some a := by
  intro hl
  exact h (List.mem_of_getLast?_eq_some hl)

theorem labels_runUpdates_distinct (us : List Update)
    (hv : ∀ u ∈ us, isNaN u.value = false)
    (hd : (us.map (fun u => u.timeLabel)).Nodup) :
    (runUpdates us emptyHistory).labels =
      (us.map (fun u => u.timeLabel)).drop (us.length - MAX_DATA_POINTS) := by
  induction us using List.reverseRecOn with
  | nil => rfl
  | append_singleton us u ih =>
    have hv1 : ∀ x ∈ us, isNaN x.value = false := fun x hx =>
      hv x (List.mem_append_left _ hx)
    have hvu : isNaN u.value = false := hv u (by simp)
    rw [List.map_append, List.nodup_append] at hd
    obtain ⟨hd1, _, hdisj⟩ := hd
    have hnot : u.timeLabel ∉ us.map (fun u => u.timeLabel) := by
      intro hmem
      exact hdisj hmem (by simp)
    have ih1 := ih hv1 hd1
    have hnotL : u.timeLabel ∉ (runUpdates us emptyHistory).labels := by
      rw [ih1]
      exact fun hmem => hnot (List.mem_of_mem_drop hmem)
    rw [runUpdates_append]
    show (updateHistoricalData u.sensorType u.value u.timeLabel
      (runUpdates us emptyHistory)).labels = _
    rw [labels_updateHistoricalData_fresh _ _ _ _ hvu
      (Or.inr (getLast?_ne_of_not_mem _ _ hnotL)), ih1]
    simp only [List.length_drop, List.length_map, List.length_append, List.length_singleton,
      List.map_append, List.map_cons, List.map_nil, MAX_DATA_POINTS]
    by_cases hlt : us.length < 20
    · have h0 : us.length - 20 = 0 := by omega
      have h1 : us.length + 1 - 20 = 0 := by omega
      rw [h0, h1, if_neg (by omega)]
      simp
    · have h1 : us.length + 1 - 20 = (us.length - 20) + 1 := by omega
      rw [h1, if_pos (by omega), ← List.drop_append_of_le_length (by simp), List.drop_drop]

theorem series_evictOldest (d : HistoricalData) (j : SensorType)
    (h : MAX_DATA_POINTS < d.labels.length) :
    (evictOldest d).series j = (d.series j).drop 1 := by
  unfold evictOldest
  rw [if_pos h]
  cases j <;> rfl

/-- C4: for every sequence of more than 20 `updateHistoricalData` calls with
non-NaN values and pairwise distinct time labels, applied to the empty
history, the result holds exactly 20 slots whose labels are the last 20 labels
supplied, in the order supplied; after 21 calls the first label supplied is
absent.  Every call that meets a full window of 20 slots with a new label
removes exactly one slot, the oldest: the window is the 21-slot history before
eviction without its first slot. -/
theorem fifo_eviction_keeps_last_twenty (us : List Update)
    (hn : MAX_DATA_POINTS < us.length)
    (hv : ∀ u ∈ us, isNaN u.value = false)
    (hd : (us.map (fun u => u.timeLabel)).Nodup) :
    (runUpdates us emptyHistory).labels =
      (us.map (fun u => u.timeLabel)).drop (us.length - 20) ∧
    (runUpdates us emptyHistory).labels.length = 20 ∧
    (runUpdates us emptyHistory).temperature.length = 20 ∧
    (runUpdates us emptyHistory).humidity.length = 20 ∧
    (runUpdates us emptyHistory).mq135.length = 20 ∧
    (us.length = 21 →
      (runUpdates us emptyHistory).labels = (us.map (fun u => u.timeLabel)).tail ∧
      ∀ u0 : Update, us.head? = some u0 →
        u0.timeLabel ∉ (runUpdates us emptyHistory).labels) ∧
    (∀ (d : HistoricalData) (k : SensorType) (v : JSNum) (t : String),
      Aligned d → d.labels.length = MAX_DATA_POINTS → isNaN v = false →
      d.labels.getLast? ≠ some t →
        (beforeEviction k v t d).labels.length = 21 ∧
        (updateHistoricalData k v t d).labels = d.labels.drop 1 ++ [t] ∧
        (updateHistoricalData k v t d).labels.length = 20 ∧
        ∀ j : SensorType,
          (updateHistoricalData k v t d).series j =
            ((beforeEviction k v t d).series j).drop 1) := by
  have hl := labels_runUpdates_distinct us hv hd
  have hlen : (runUpdates us emptyHistory).labels.length = 20 := by
    rw [hl]
    simp only [List.length_drop, List.length_map, MAX_DATA_POINTS] at hn ⊢
    omega
  obtain ⟨h1, h2, h3⟩ := aligned_runUpdates us emptyHistory aligned_emptyHistory
  refine ⟨hl, hlen, h1.trans hlen, h2.trans hlen, h3.trans hlen, ?_, ?_⟩
  · intro h21
    have htail : (runUpdates us emptyHistory).labels =
        (us.map (fun u => u.timeLabel)).tail := by
      rw [hl, h21]
      exact List.drop_one _
    refine ⟨htail, ?_⟩
    intro u0 hu0
    rw [htail]
    cases us with
    | nil => simp at hu0
    | cons a rest =>
      simp only [List.head?_cons, Option.some.injEq] at hu0
      subst hu0
      simp only [List.map_cons, List.tail_cons, List.nodup_cons] at hd ⊢
      exact hd.1
  · intro d k v t hal hfull hnv hlast
    have hs := shouldAddNewPoint_eq_true d t (Or.inr hlast)
    have hpre : (beforeEviction k v t d).labels = d.labels ++ [t] := by
      unfold beforeEviction
      rw [labels_writeValue, labels_addNewPoint d t hs]
    have hprelen : (beforeEviction k v t d).labels.length = 21 := by
      rw [hpre, List.length_append, hfull]
      rfl
    have hupd : updateHistoricalData k v t d = evictOldest (beforeEviction k v t d) := by
      unfold updateHistoricalData
      rw [hnv]
      rfl
    have hlab : (updateHistoricalData k v t d).labels = d.labels.drop 1 ++ [t] := by
      rw [labels_updateHistoricalData_fresh d k v t hnv (Or.inr hlast),
        if_pos (by omega), List.drop_append_of_le_length (by rw [hfull]; decide)]
    refine ⟨hprelen, hlab, ?_, ?_⟩
    · rw [hlab]
      simp only [List.length_append, List.length_drop, List.length_singleton, hfull]
      rfl
    · intro j
      rw [hupd]
      exact series_evictOldest _ j (by rw [hprelen]; decide)

/-- Witness for C4: after the 21 readings of `twentyOneUpdates` the window
holds the labels `10:00:01` to `10:00:20` and `10:00:00` is gone. -/
theorem fifo_eviction_keeps_last_twenty_witness :
    MAX_DATA_POINTS < twentyOneUpdates.length ∧
    (runUpdates twentyOneUpdates emptyHistory).labels =
      ["10:00:01", "10:00:02", "10:00:03", "10:00:04", "10:00:05", "10:00:06", "10:00:07", "10:00:08", "10:00:09", "10:00:10", "10:00:11", "10:00:12", "10:00:13", "10:00:14", "10:00:15", "10:00:16", "10:00:17", "10:00:18", "10:00:19", "10:00:20"] ∧
    (runUpdates twentyOneUpdates emptyHistory).labels.length = 20 :=
  have h := fifo_eviction_keeps_last_twenty twentyOneUpdates (by decide) (by decide)
    (by decide)
  ⟨by decide, h.1, h.2.1⟩

/-! ## Theorems: `localStorage` and `parseInt` -/

theorem getItem_nil (key : String) : getItem [] key = none := rfl

theorem getItem_cons (p : String × String) (ps : Store) (key : String) :
    getItem (p :: ps) key = if p.1 = key then some p.2 else getItem ps key := by
  unfold getItem
  rw [List.find?_cons]
  by_cases h : p.1 = key
  · simp [h]
  · have hb : (p.1 == key) = false := by simpa using h
    rw [hb, if_neg h]

theorem removeItem_cons (p : String × String) (ps : Store) (key : String) :
    removeItem key (p :: ps) =
      if p.1 = key then removeItem key ps else p :: removeItem key ps := by
  unfold removeItem
  rw [List.filter_cons]
  by_cases h : p.1 = key
  · simp [h]
  · simp [h]

theorem getItem_removeItem_same (key : String) (store : Store) :
    getItem (removeItem key store) key = none := by
  induction store with
  | nil => rfl
  | cons p ps ih =>
    rw [removeItem_cons]
    split
    · exact ih
    · rename_i h
      rw [getItem_cons, if_neg h]
      exact ih

theorem getItem_removeItem_other (key other : String) (store : Store) (hne : other ≠ key) :
    getItem (removeItem key store) other = getItem store other := by
  induction store with
  | nil => rfl
  | cons p ps ih =>
    rw [removeItem_cons, getItem_cons]
    by_cases h : p.1 = key
    · rw [if_pos h, if_neg (fun h3 => hne (h3.symm.trans h))]
      exact ih
    · rw [if_neg h, getItem_cons, ih]

theorem getItem_setItem_same (key value : String) (store : Store) :
    getItem (setItem key value store) key = some value := by
  unfold setItem
  rw [getItem_cons, if_pos rfl]

theorem getItem_setItem_other (key value other : String) (store : Store)
    (hne : other ≠ key) :
    getItem (setItem key value store) other = getItem store other := by
  unfold setItem
  rw [getItem_cons, if_neg (fun h : key = other => hne h.symm)]
  exact getItem_removeItem_other key other store hne

theorem removeItem_of_getItem_none (key : String) (store : Store)
    (h : getItem store key = none) : removeItem key store = store := by
  induction store with
  | nil => rfl
  | cons p ps ih =>
    rw [getItem_cons] at h
    rw [removeItem_cons]
    by_cases h2 : p.1 = key
    · rw [if_pos h2] at h
      exact absurd h (by simp)
    · rw [if_neg h2] at h
      rw [if_neg h2, ih h]

theorem digitChar_facts (d : Nat) (hd : d < 10) :
    digitVal 10 (Nat.digitChar d) = some d ∧ isWhiteSpace (Nat.digitChar d) = false ∧
    Nat.digitChar d ≠ '-' ∧ Nat.digitChar d ≠ '+' ∧ Nat.digitChar d ≠ 'x' ∧
    Nat.digitChar d ≠ 'X' := by
  interval_cases d <;> decide

theorem digitPrefix_map_digitChar (L : List Nat) (hL : ∀ d ∈ L, d < 10) :
    digitPrefix 10 (L.map Nat.digitChar) = L := by
  induction L with
  | nil => rfl
  | cons d ds ih =>
    have hd := (digitChar_facts d (hL d (by simp))).1
    simp only [List.map_cons, digitPrefix, hd]
    rw [ih (fun x hx => hL x (List.mem_cons_of_mem _ hx))]

theorem toDigitsCore_spec (fuel : Nat) : ∀ (n : Nat) (ds : List Char), n < fuel →
    ∃ L : List Nat, L ≠ [] ∧ (∀ d ∈ L, d < 10) ∧
      Nat.toDigitsCore 10 fuel n ds = L.map Nat.digitChar ++ ds ∧
      ∀ acc : Nat, L.foldl (fun a d => a * 10 + d) acc = acc * 10 ^ L.length + n := by
  induction fuel with
  | zero => intro n ds h; omega
  | succ fuel ih =>
    intro n ds hn
    by_cases h0 : n / 10 = 0
    · refine ⟨[n % 10], by simp, ?_, ?_, ?_⟩
      · intro d hd
        simp only [List.mem_singleton] at hd
        omega
      · simp [Nat.toDigitsCore, h0]
      · intro acc
        simp only [List.foldl_cons, List.foldl_nil, List.length_singleton, pow_one]
        omega
    · obtain ⟨L, hne, hlt, heq, hfold⟩ :=
        ih (n / 10) (Nat.digitChar (n % 10) :: ds) (by omega)
      refine ⟨L ++ [n % 10], by simp, ?_, ?_, ?_⟩
      · intro d hd
        rcases List.mem_append.mp hd with h | h
        · exact hlt d h
        · simp only [List.mem_singleton] at h
          omega
      · simp [Nat.toDigitsCore, h0, heq]
      · intro acc
        rw [List.foldl_append, hfold]
        simp only [List.foldl_cons, List.foldl_nil, List.length_append, List.length_singleton,
          pow_succ]
        have := Nat.div_add_mod n 10
        nlinarith [this]

theorem timestampString_spec (now : Nat) :
    ∃ L : List Nat, L ≠ [] ∧ (∀ d ∈ L, d < 10) ∧
      (timestampString now).data = L.map Nat.digitChar ∧
      L.foldl (fun a d => a * 10 + d) 0 = now := by
  obtain ⟨L, hne, hlt, heq, hfold⟩ := toDigitsCore_spec (now + 1) now [] (by omega)
  refine ⟨L, hne, hlt, ?_, ?_⟩
  · simp [timestampString, Nat.toDigits, heq, List.asString]
  · simpa using hfold 0

theorem parseInt_timestampString (now : Nat) :
    parseInt (timestampString now) = some (now : Int) := by
  obtain ⟨L, hne, hlt, hdata, hfold⟩ := timestampString_spec now
  obtain ⟨d, ds, rfl⟩ : ∃ d ds, L = d :: ds := by
    cases L with
    | nil => exact absurd rfl hne
    | cons d ds => exact ⟨d, ds, rfl⟩
  have hd := digitChar_facts d (hlt d (by simp))
  have hdrop : (timestampString now).data.dropWhile isWhiteSpace =
      (d :: ds).map Nat.digitChar := by
    rw [hdata]
    simp [List.dropWhile_cons, hd.2.1]
  have hsign : stripSign ((d :: ds).map Nat.digitChar) =
      (false, (d :: ds).map Nat.digitChar) := by
    simp [stripSign, hd.2.2.1, hd.2.2.2.1]
  have hradix : stripRadix ((d :: ds).map Nat.digitChar) =
      (10, (d :: ds).map Nat.digitChar) := by
    cases ds with
    | nil => rfl
    | cons e es =>
      have he := digitChar_facts e (hlt e (by simp))
      simp [stripRadix, he.2.2.2.2.1, he.2.2.2.2.2]
  unfold parseInt
  simp only [hdrop, hsign, hradix, digitPrefix_map_digitChar _ hlt, hfold]
  simp

theorem timestampString_ne_empty (now : Nat) : timestampString now ≠ "" := by
  obtain ⟨L, hne, _, hdata, _⟩ := timestampString_spec now
  intro h
  rw [h] at hdata
  cases L with
  | nil => exact hne rfl
  | cons d ds => simp at hdata

/-! ## Theorems: the session lease -/

theorem session_ne_heartbeat : SESSION_KEY ≠ HEARTBEAT_KEY := by decide

theorem checkActiveSession_of_lease (store : Store) (marker : String) (h now : Nat)
    (hs : getItem store SESSION_KEY = some marker) (hm : marker ≠ "")
    (hh : getItem store HEARTBEAT_KEY = some (timestampString h)) :
    checkActiveSession store now = decide ((now : Int) - (h : Int) < 15000) := by
  unfold checkActiveSession
  rw [hs, hh]
  have h1 : truthy marker = true := by simpa [truthy] using hm
  have h2 : truthy (timestampString h) = true := by
    simpa [truthy] using timestampString_ne_empty h
  simp only [h1, h2, Bool.and_self, if_true, parseInt_timestampString]

theorem checkActiveSession_of_absent (store : Store) (now : Nat)
    (h : getItem store SESSION_KEY = none ∨ getItem store HEARTBEAT_KEY = none) :
    checkActiveSession store now = false := by
  unfold checkActiveSession
  rcases h with h | h
  · rw [h]
    cases getItem store HEARTBEAT_KEY <;> rfl
  · rw [h]

theorem getItem_claimSession_session (now : Nat) (store : Store) :
    getItem (claimSession now store) SESSION_KEY = some "active" := by
  unfold claimSession
  rw [getItem_setItem_other _ _ _ _ session_ne_heartbeat, getItem_setItem_same]

theorem getItem_claimSession_heartbeat (now : Nat) (store : Store) :
    getItem (claimSession now store) HEARTBEAT_KEY = some (timestampString now) := by
  unfold claimSession
  rw [getItem_setItem_same]

theorem getItem_claimSession_other (now : Nat) (store : Store) (key : String)
    (h1 : key ≠ SESSION_KEY) (h2 : key ≠ HEARTBEAT_KEY) :
    getItem (claimSession now store) key = getItem store key := by
  unfold claimSession
  rw [getItem_setItem_other _ _ _ _ h2, getItem_setItem_other _ _ _ _ h1]

theorem checkActiveSession_after_ticks (ticks : List Nat) (store : Store) (marker : String)
    (h h0 now : Nat) (hs : getItem store SESSION_KEY = some marker) (hm : marker ≠ "")
    (hh : getItem store HEARTBEAT_KEY = some (timestampString h0)) (h0le : h ≤ h0)
    (hticks : ∀ u ∈ ticks, h ≤ u) (hnow : (now : Int) - (h : Int) < 15000) :
    checkActiveSession
      (ticks.foldl (fun s u => setItem HEARTBEAT_KEY (timestampString u) s) store) now
      = true := by
  induction ticks generalizing store h0 with
  | nil =>
    rw [List.foldl_nil, checkActiveSession_of_lease store marker h0 now hs hm hh]
    exact decide_eq_true (by omega)
  | cons u us ih =>
    rw [List.foldl_cons]
    apply ih (setItem HEARTBEAT_KEY (timestampString u) store) u
    · rw [getItem_setItem_other _ _ _ _ session_ne_heartbeat]
      exact hs
    · exact getItem_setItem_same _ _ _
    · exact hticks u (by simp)
    · exact fun x hx => hticks x (List.mem_cons_of_mem _ hx)

/-- C6: on a store that holds the session marker (any non-empty string, as the
`'active'` that `claimSession` writes) and the heartbeat time stamp `h`,
`checkActiveSession` at clock value `now` returns true exactly when
`now - h < 15000`; on a store in which either key is absent it returns
false. -/
theorem checkActiveSession_iff_fresh (store : Store) (now : Nat) :
    (∀ (marker : String) (h : Nat),
      getItem store SESSION_KEY = some marker → marker ≠ "" →
      getItem store HEARTBEAT_KEY = some (timestampString h) →
        (checkActiveSession store now = true ↔ (now : Int) - (h : Int) < 15000)) ∧
    (getItem store SESSION_KEY = none ∨ getItem store HEARTBEAT_KEY = none →
      checkActiveSession store now = false) := by
  refine ⟨?_, checkActiveSession_of_absent store now⟩
  intro marker h hs hm hh
  rw [checkActiveSession_of_lease store marker h now hs hm hh, decide_eq_true_iff]

/-- Witness for C6: a lease written at 1000 is live at 15999 and not at
16000, and the empty store holds no live lease. -/
theorem checkActiveSession_iff_fresh_witness :
    (checkActiveSession (claimSession 1000 []) 15999 = true ↔
      ((15999 : Nat) : Int) - ((1000 : Nat) : Int) < 15000) ∧
    (checkActiveSession (claimSession 1000 []) 16000 = true ↔
      ((16000 : Nat) : Int) - ((1000 : Nat) : Int) < 15000) ∧
    checkActiveSession [] 16000 = false :=
  ⟨(checkActiveSession_iff_fresh (claimSession 1000 []) 15999).1 "active" 1000
      (by decide) (by decide) (by decide),
   (checkActiveSession_iff_fresh (claimSession 1000 []) 16000).1 "active" 1000
      (by decide) (by decide) (by decide),
   (checkActiveSession_iff_fresh [] 16000).2 (Or.inl (by decide))⟩

/-! ## Theorems: the connection manager -/

theorem connectToMqtt_of_conflict (now : Nat) (connectThrows : Bool) (w : Dashboard)
    (h : checkActiveSession w.localStorage now = true) :
    connectToMqtt now connectThrows w =
      { w with connectionStatus := "Another Tab Active" } := by
  unfold connectToMqtt admission
  rw [if_pos h]

theorem connectToMqtt_of_admitted (now : Nat) (connectThrows : Bool) (w : Dashboard)
    (hatt : w.connectionAttemptRef = false) (hcl : clientActive w = false)
    (hstale : checkActiveSession w.localStorage now = false) :
    admission now w = Admission.admitted ∧
    admissionStep now w = claimAndMark now w ∧
    connectToMqtt now connectThrows w = openTransport connectThrows (claimAndMark now w) := by
  have hadm : admission now w = Admission.admitted := by
    unfold admission
    rw [hstale, hatt, hcl]
    rfl
  refine ⟨hadm, ?_, ?_⟩
  · unfold admissionStep
    rw [hadm]
  · unfold connectToMqtt
    rw [hadm]

/-- C5: when an instance with no attempt in flight and no active client calls
`connectToMqtt` at clock value `t` and the stored lease is not live, the
admission step (lines 129-146, the part of `connectToMqtt` before the `try`)
writes the marker `'active'` and the heartbeat time stamp `t`, and
`connectToMqtt` is that step followed by the opening of the transport: when
`mqtt.connect` returns, the store of the result holds the lease, the attempt is
in flight and one client was created.  From then on, with no release in
between (heartbeat ticks at or after `t` allowed), `checkActiveSession` returns
true at every clock value `t'` with `t' - t < 15000`, so `connectToMqtt` run
by any other instance over that store at such a `t'` only reports
`'Another Tab Active'`.  On an empty store `connectToMqtt` claims. -/
theorem admission_claims_lease (w : Dashboard) (t : Nat)
    (hatt : w.connectionAttemptRef = false) (hcl : clientActive w = false)
    (hstale : checkActiveSession w.localStorage t = false) :
    (∀ connectThrows : Bool,
      connectToMqtt t connectThrows w = openTransport connectThrows (admissionStep t w)) ∧
    (admissionStep t w).localStorage = claimSession t w.localStorage ∧
    (connectToMqtt t false w).localStorage = claimSession t w.localStorage ∧
    getItem (connectToMqtt t false w).localStorage SESSION_KEY = some "active" ∧
    getItem (connectToMqtt t false w).localStorage HEARTBEAT_KEY = some (timestampString t) ∧
    (connectToMqtt t false w).connectionAttemptRef = true ∧
    (connectToMqtt t false w).clients = w.clients ++ [newMqttClient] ∧
    (∀ t' : Nat, (t' : Int) - (t : Int) < 15000 →
      checkActiveSession (connectToMqtt t false w).localStorage t' = true) ∧
    (∀ (ticks : List Nat) (t' : Nat), (∀ u ∈ ticks, t ≤ u) →
      (t' : Int) - (t : Int) < 15000 →
      checkActiveSession
        (ticks.foldl (fun s u => setItem HEARTBEAT_KEY (timestampString u) s)
          (connectToMqtt t false w).localStorage) t' = true) ∧
    (∀ (other : Dashboard) (t' : Nat) (connectThrows : Bool),
      other.localStorage = (connectToMqtt t false w).localStorage →
      (t' : Int) - (t : Int) < 15000 →
      connectToMqtt t' connectThrows other =
        { other with connectionStatus := "Another Tab Active" }) ∧
    (∀ (fresh : Dashboard) (t0 : Nat), fresh.localStorage = [] →
      fresh.connectionAttemptRef = false → clientActive fresh = false →
      (connectToMqtt t0 false fresh).localStorage = claimSession t0 [] ∧
      (connectToMqtt t0 false fresh).connectionAttemptRef = true) := by
  obtain ⟨_, hstep, hconn⟩ := connectToMqtt_of_admitted t false w hatt hcl hstale
  have hstore : (connectToMqtt t false w).localStorage = claimSession t w.localStorage := by
    rw [hconn]
    rfl
  have hs := getItem_claimSession_session t w.localStorage
  have hh := getItem_claimSession_heartbeat t w.localStorage
  have hlive : ∀ t' : Nat, (t' : Int) - (t : Int) < 15000 →
      checkActiveSession (connectToMqtt t false w).localStorage t' = true := by
    intro t' ht'
    rw [hstore, checkActiveSession_of_lease _ "active" t t' hs (by decide) hh]
    exact decide_eq_true ht'
  refine ⟨?_, ?_, hstore, ?_, ?_, ?_, ?_, hlive, ?_, ?_, ?_⟩
  · intro connectThrows
    rw [hstep]
    exact (connectToMqtt_of_admitted t connectThrows w hatt hcl hstale).2.2
  · rw [hstep]
    rfl
  · rw [hstore]; exact hs
  · rw [hstore]; exact hh
  · rw [hconn]; rfl
  · rw [hconn]; rfl
  · intro ticks t' hticks ht'
    rw [hstore]
    exact checkActiveSession_after_ticks ticks _ "active" t t t' hs (by decide) hh
      (Nat.le_refl t) hticks ht'
  · intro other t' connectThrows hsame ht'
    exact connectToMqtt_of_conflict t' connectThrows other (by rw [hsame]; exact hlive t' ht')
  · intro fresh t0 hempty hatt0 hcl0
    have h0 := (connectToMqtt_of_admitted t0 false fresh hatt0 hcl0
      (by rw [hempty]; rfl)).2.2
    rw [h0]
    refine ⟨?_, rfl⟩
    show claimSession t0 fresh.localStorage = claimSession t0 []
    rw [hempty]

/-- Witness for C5: `connectToMqtt` on the first dashboard over an empty store
at 1000 writes the lease, which is live at 15999. -/
theorem admission_claims_lease_witness :
    (connectToMqtt 1000 false (initialDashboard [])).localStorage =
      [("auralink_heartbeat", "1000"), ("auralink_mqtt_session", "active")] ∧
    (connectToMqtt 1000 false (initialDashboard [])).connectionAttemptRef = true ∧
    checkActiveSession (connectToMqtt 1000 false (initialDashboard [])).localStorage 15999
      = true :=
  have h := admission_claims_lease (initialDashboard []) 1000 rfl rfl (by decide)
  ⟨h.2.2.1, h.2.2.2.2.2.1, h.2.2.2.2.2.2.2.1 15999 (by decide)⟩

/-- C8 as stated fails when the lease in the store is live: a second
`connectToMqtt` at 2000, while the attempt started at 1000 is in flight, meets
the session check of line 131 first and changes the connection status from
`'Disconnected'` to `'Another Tab Active'`. -/
theorem connect_in_flight_live_lease_counterexample :
    connectingDashboard.connectionAttemptRef = true ∧
    connectingDashboard.connectionStatus = "Disconnected" ∧
    (connectToMqtt 2000 false connectingDashboard).connectionStatus = "Another Tab Active" ∧
    connectToMqtt 2000 false connectingDashboard ≠ connectingDashboard := by
  decide

/-- C8 (amended): when a connection attempt is in flight or a client exists
that is not disconnected, and the lease in the store is not live at the
current time, `connectToMqtt` is a no-op: status, stable flag, in-flight flag,
client reference, store and the list of opened transports are unchanged. -/
theorem connect_in_flight_is_noop (w : Dashboard) (now : Nat) (connectThrows : Bool)
    (hbusy : w.connectionAttemptRef = true ∨ clientActive w = true)
    (hstale : checkActiveSession w.localStorage now = false) :
    connectToMqtt now connectThrows w = w ∧
    (connectToMqtt now connectThrows w).clients.length = w.clients.length := by
  have h : connectToMqtt now connectThrows w = w := by
    unfold connectToMqtt admission
    rw [hstale]
    rcases hbusy with h | h
    · rw [h]; rfl
    · rw [h, Bool.or_true]; rfl
  exact ⟨h, by rw [h]⟩

/-- Witness for C8 (amended): at 20000 the lease written at 1000 is stale and
a second `connectToMqtt` leaves the connecting dashboard as it is. -/
theorem connect_in_flight_is_noop_witness :
    connectingDashboard.connectionAttemptRef = true ∧
    checkActiveSession connectingDashboard.localStorage 20000 = false ∧
    connectToMqtt 20000 false connectingDashboard = connectingDashboard :=
  ⟨by decide, by decide,
    (connect_in_flight_is_noop connectingDashboard 20000 false (Or.inl (by decide))
      (by decide)).1⟩

/-- C9: whenever `checkActiveSession` returns true, `connectToMqtt` sets the
connection status to `'Another Tab Active'` and does nothing else: no
transport is opened (also none that could throw), no key of the store is
written, and the stable flag, in-flight flag and client reference are
unchanged. -/
theorem connect_refused_on_live_lease (w : Dashboard) (now : Nat) (connectThrows : Bool)
    (hlive : checkActiveSession w.localStorage now = true) :
    connectToMqtt now connectThrows w =
      { w with connectionStatus := "Another Tab Active" } ∧
    (connectToMqtt now connectThrows w).connectionStatus = "Another Tab Active" ∧
    (connectToMqtt now connectThrows w).clients = w.clients ∧
    (connectToMqtt now connectThrows w).localStorage = w.localStorage ∧
    (connectToMqtt now connectThrows w).connectionAttemptRef = w.connectionAttemptRef ∧
    (connectToMqtt now connectThrows w).clientRef = w.clientRef ∧
    (connectToMqtt now connectThrows w).isStableConnection = w.isStableConnection ∧
    (connectToMqtt now connectThrows w).intervals = w.intervals := by
  have h := connectToMqtt_of_conflict now connectThrows w hlive
  rw [h]
  exact ⟨rfl, rfl, rfl, rfl, rfl, rfl, rfl, rfl⟩

/-- Witness for C9: a fresh dashboard over a store whose lease was written at
1000 is refused at 2000. -/
theorem connect_refused_on_live_lease_witness :
    checkActiveSession (initialDashboard (claimSession 1000 [])).localStorage 2000 = true ∧
    connectToMqtt 2000 false (initialDashboard (claimSession 1000 [])) =
      { initialDashboard (claimSession 1000 []) with
        connectionStatus := "Another Tab Active" } :=
  ⟨by decide,
    (connect_refused_on_live_lease (initialDashboard (claimSession 1000 [])) 2000 false
      (by decide)).1⟩

/-- C10 as stated fails: in `ConnectedUnstable`, with heartbeat interval 1
running and the lease in the store, the `error` handler given a
`Not authorized` error sets `'Auth Error'` but leaves the interval running
and both lease keys in place; the lease also stays in `Connecting` and the
interval also keeps running in `ConnectedStable`. -/
theorem auth_error_keeps_lease_counterexample :
    isConnectedUnstable unstableDashboard = true ∧
    messageIncludes notAuthorized "Not authorized" = true ∧
    (onError notAuthorized unstableDashboard).connectionStatus = "Auth Error" ∧
    1 ∈ (onError notAuthorized unstableDashboard).intervals ∧
    (onError notAuthorized unstableDashboard).clients.map (fun c => c.heartbeatInterval)
      = [some 1] ∧
    getItem (onError notAuthorized unstableDashboard).localStorage SESSION_KEY
      = some "active" ∧
    getItem (onError notAuthorized unstableDashboard).localStorage HEARTBEAT_KEY
      = some "1000" ∧
    isConnecting connectingDashboard = true ∧
    getItem (onError notAuthorized connectingDashboard).localStorage SESSION_KEY
      = some "active" ∧
    isConnectedStable { unstableDashboard with isStableConnection := true } = true ∧
    1 ∈ (onError notAuthorized
      { unstableDashboard with isStableConnection := true }).intervals := by
  decide

/-- C10 (amended): in every manager state, `Connecting`, `ConnectedUnstable`
and `ConnectedStable` included, the `error` handler given an error whose
message contains `Not authorized` yields connection status `'Auth Error'` with
the stable flag false and the in-flight flag false, and leaves the running
interval timers, the client objects, the client reference and the store,
both lease keys included, as they were. -/
theorem auth_error_sets_status_only (w : Dashboard) (error : JSError)
    (hauth : messageIncludes error "Not authorized" = true) :
    (onError error w).connectionStatus = "Auth Error" ∧
    (onError error w).isStableConnection = false ∧
    (onError error w).connectionAttemptRef = false ∧
    (onError error w).intervals = w.intervals ∧
    (onError error w).clients = w.clients ∧
    (onError error w).clientRef = w.clientRef ∧
    (onError error w).localStorage = w.localStorage := by
  refine ⟨?_, rfl, rfl, rfl, rfl, rfl, rfl⟩
  unfold onError
  simp only [hauth, if_true]

/-- Witness for C10 (amended) on the `ConnectedUnstable` dashboard. -/
theorem auth_error_sets_status_only_witness :
    isConnectedUnstable unstableDashboard = true ∧
    (onError notAuthorized unstableDashboard).connectionStatus = "Auth Error" ∧
    (onError notAuthorized unstableDashboard).localStorage = unstableDashboard.localStorage :=
  have h := auth_error_sets_status_only unstableDashboard notAuthorized (by decide)
  ⟨by decide, h.1, h.2.2.2.2.2.2⟩

/-! ## Theorems: releasing the lease and the shutdown paths -/

theorem getItem_releaseSession_session (store : Store) :
    getItem (releaseSession store) SESSION_KEY = none := by
  unfold releaseSession
  rw [getItem_removeItem_other _ _ _ session_ne_heartbeat, getItem_removeItem_same]

theorem getItem_releaseSession_heartbeat (store : Store) :
    getItem (releaseSession store) HEARTBEAT_KEY = none := by
  unfold releaseSession
  rw [getItem_removeItem_same]

theorem getItem_releaseSession_other (store : Store) (key : String)
    (h1 : key ≠ SESSION_KEY) (h2 : key ≠ HEARTBEAT_KEY) :
    getItem (releaseSession store) key = getItem store key := by
  unfold releaseSession
  rw [getItem_removeItem_other _ _ _ h2, getItem_removeItem_other _ _ _ h1]

theorem keepsStore_ok (f : Dashboard → Dashboard)
    (hf : ∀ w, (f w).localStorage = w.localStorage) : (Action.ok f).KeepsStore :=
  fun w => hf w

theorem keepsStore_andThen (a b : Action) (ha : a.KeepsStore) (hb : b.KeepsStore) :
    (a.andThen b).KeepsStore := by
  intro w
  unfold Action.andThen
  split
  · exact ha w
  · rw [hb, ha]

theorem keepsStore_tryCatch (a : Action) (ha : a.KeepsStore) : (tryCatch a).KeepsStore :=
  fun w => ha w

theorem keepsStore_publish (throwsOn : PublishFailures) (call : PublishCall) :
    (publish throwsOn call).KeepsStore :=
  fun _ => rfl

theorem keepsStore_endCall (endThrows : Bool) (client : Nat) :
    (endCall endThrows client).KeepsStore := by
  intro w
  unfold endCall
  split <;> rfl

theorem keepsStore_forEachTopic (topics : List String) (body : String → Action)
    (hb : ∀ topic, (body topic).KeepsStore) : (forEachTopic topics body).KeepsStore := by
  have key : ∀ (ts : List String) (r : Dashboard × Bool),
      (ts.foldl (fun r topic => if r.2 then r else body topic r.1) r).1.localStorage
        = r.1.localStorage := by
    intro ts
    induction ts with
    | nil => intro r; rfl
    | cons t ts ih =>
      intro r
      rw [List.foldl_cons, ih]
      split
      · rfl
      · exact hb t r.1
  intro w
  exact key topics (w, false)

theorem keepsStore_clearRetainedMessages (throwsOn : PublishFailures) (client : Option Nat) :
    (clearRetainedMessages throwsOn client).KeepsStore := by
  intro w
  unfold clearRetainedMessages
  split
  · exact keepsStore_forEachTopic _ _
      (fun topic => keepsStore_tryCatch _ (keepsStore_publish throwsOn _)) w
  · rfl

theorem localStorage_clearHeartbeat (client : Nat) (w : Dashboard) :
    (clearHeartbeat client w).localStorage = w.localStorage := by
  unfold clearHeartbeat
  split
  · split
    · split <;> rfl
    · rfl
  · rfl

theorem localStorage_handleBeforeUnload (throwsOn : PublishFailures) (endThrows : Bool)
    (w : Dashboard) :
    (handleBeforeUnload throwsOn endThrows w).localStorage = releaseSession w.localStorage := by
  unfold handleBeforeUnload
  simp only
  split
  · split
    · rename_i c _
      exact keepsStore_tryCatch _
        (keepsStore_andThen _ _ (keepsStore_clearRetainedMessages throwsOn (some c))
          (keepsStore_andThen _ _ (keepsStore_publish throwsOn _)
            (keepsStore_endCall endThrows c))) _
    · rfl
  · rfl

theorem localStorage_unmountCleanup_of_active (throwsOn : PublishFailures) (w : Dashboard)
    (hactive : clientActive w = true) :
    (unmountCleanup throwsOn w).localStorage = releaseSession w.localStorage := by
  unfold unmountCleanup
  simp only [hactive, if_true]
  cases hc : w.clientRef with
  | none => simp [clientActive, hc] at hactive
  | some c =>
    have hkeep := keepsStore_tryCatch _
      (keepsStore_andThen _ _
        (keepsStore_ok (clearHeartbeat c) (localStorage_clearHeartbeat c))
        (keepsStore_andThen _ _ (keepsStore_clearRetainedMessages throwsOn (some c))
          (keepsStore_andThen _ _ (keepsStore_publish throwsOn offlineAnnouncement)
            (keepsStore_ok
              (fun s => { s with timerCount := s.timerCount + 1,
                                 timeouts := s.timeouts ++ [Timeout.endClient c] })
              (fun _ => rfl))))) w
    simp only
    rw [hkeep]

theorem localStorage_unmountCleanup_of_inactive (throwsOn : PublishFailures) (w : Dashboard)
    (hinactive : clientActive w = false) :
    unmountCleanup throwsOn w = { w with connectionAttemptRef := false } := by
  unfold unmountCleanup
  simp only [hinactive, Bool.false_eq_true, if_false]

/-- C11, evaluated at the failing input: the unmount cleanup runs while the
connection attempt is in flight (lease claimed at 1000, `clientRef` not yet
set).  The cleanup skips the block that holds `releaseSession`, so both lease
keys stay in the store; when the orphaned client is then acknowledged its
heartbeat renews the lease at 11000, and a dashboard mounted afterwards is
refused at 20000 with `'Another Tab Active'`. -/
theorem unmount_in_flight_leaks_lease :
    connectingDashboard.connectionAttemptRef = true ∧
    connectingDashboard.clientRef = none ∧
    getItem (unmountCleanup (fun _ _ => false) connectingDashboard).localStorage SESSION_KEY
      = some "active" ∧
    getItem (unmountCleanup (fun _ _ => false) connectingDashboard).localStorage HEARTBEAT_KEY
      = some "1000" ∧
    (unmountCleanup (fun _ _ => false) connectingDashboard).clients.map
      (fun c => c.endCalled) = [false] ∧
    getItem
      (heartbeatTick 11000 1
        (onConnect (fun _ _ => false) 0
          (unmountCleanup (fun _ _ => false) connectingDashboard))).localStorage HEARTBEAT_KEY
      = some "11000" ∧
    (connectToMqtt 20000 false
      (initialDashboard
        (heartbeatTick 11000 1
          (onConnect (fun _ _ => false) 0
            (unmountCleanup (fun _ _ => false) connectingDashboard))).localStorage)
      ).connectionStatus = "Another Tab Active" := by
  decide

/-- The shutdown paths that do release the lease: in every manager state and
for every store, whichever `publish` calls throw and whether or not `end`
throws, `handleBeforeUnload` ends with both lease keys removed from the store;
the unmount cleanup ends with both lease keys removed whenever `clientRef`
holds a client that is not disconnected, whichever `publish` calls throw. -/
theorem shutdown_releases_lease (w : Dashboard) (throwsOn : PublishFailures)
    (endThrows : Bool) :
    getItem (handleBeforeUnload throwsOn endThrows w).localStorage SESSION_KEY = none ∧
    getItem (handleBeforeUnload throwsOn endThrows w).localStorage HEARTBEAT_KEY = none ∧
    (clientActive w = true →
      getItem (unmountCleanup throwsOn w).localStorage SESSION_KEY = none ∧
      getItem (unmountCleanup throwsOn w).localStorage HEARTBEAT_KEY = none) := by
  rw [localStorage_handleBeforeUnload]
  refine ⟨getItem_releaseSession_session _, getItem_releaseSession_heartbeat _, ?_⟩
  intro hactive
  rw [localStorage_unmountCleanup_of_active throwsOn w hactive]
  exact ⟨getItem_releaseSession_session _, getItem_releaseSession_heartbeat _⟩

/-- On the connected dashboard, with every `publish` and `end` throwing, both
shutdown paths leave the store without a lease. -/
theorem shutdown_releases_lease_connected :
    clientActive unstableDashboard = true ∧
    getItem unstableDashboard.localStorage SESSION_KEY = some "active" ∧
    getItem (handleBeforeUnload (fun _ _ => true) true unstableDashboard).localStorage
      SESSION_KEY = none ∧
    getItem (unmountCleanup (fun _ _ => true) unstableDashboard).localStorage
      SESSION_KEY = none ∧
    getItem (unmountCleanup (fun _ _ => true) unstableDashboard).localStorage
      HEARTBEAT_KEY = none :=
  have h := shutdown_releases_lease unstableDashboard (fun _ _ => true) true
  ⟨by decide, by decide, h.1, (h.2.2 (by decide)).1, (h.2.2 (by decide)).2⟩

/-! ## Theorems: clearing retained messages -/

theorem forEachTopic_tryCatch_publish (throwsOn : PublishFailures) (topics : List String)
    (w : Dashboard) :
    forEachTopic topics
        (fun topic =>
          tryCatch (publish throwsOn { topic := topic, payload := "", retain := true, qos := 0 }))
        w
      = ({ w with published := w.published ++
            topics.map (fun topic =>
              ({ topic := topic, payload := "", retain := true, qos := 0 } : PublishCall)) },
         false) := by
  unfold forEachTopic
  induction topics generalizing w with
  | nil => simp
  | cons t ts ih =>
    rw [List.foldl_cons]
    simp only [Bool.false_eq_true, if_false]
    have hstep : tryCatch
        (publish throwsOn { topic := t, payload := "", retain := true, qos := 0 }) w
        = ({ w with published := w.published ++
              [({ topic := t, payload := "", retain := true, qos := 0 } : PublishCall)] },
           false) := rfl
    rw [hstep, ih]
    simp

theorem clearRetainedMessages_of_usable (throwsOn : PublishFailures) (client : Option Nat)
    (w : Dashboard) (h : clientUsable w client = true) :
    clearRetainedMessages throwsOn client w
      = ({ w with published := w.published ++
            topicsToClear.map (fun topic =>
              ({ topic := topic, payload := "", retain := true, qos := 0 } : PublishCall)) },
         false) := by
  unfold clearRetainedMessages
  rw [if_pos h]
  exact forEachTopic_tryCatch_publish throwsOn topicsToClear w

theorem clearRetainedMessages_of_unusable (throwsOn : PublishFailures) (client : Option Nat)
    (w : Dashboard) (h : clientUsable w client = false) :
    clearRetainedMessages throwsOn client w = (w, false) := by
  unfold clearRetainedMessages
  rw [if_neg (by simp [h])]

theorem clientUsable_of_connected (w : Dashboard) (i : Nat) (c : MqttClient)
    (hc : w.clients.get? i = some c) (hd : c.disconnected = false) :
    clientUsable w (some i) = true := by
  unfold clientUsable
  simp only [hc, hd, Bool.not_false]

/-- C18 as stated fails: for the connected client of `unstableDashboard`,
`clearRetainedMessages` makes no `publish` call on the control topic
`esp32/control`. -/
theorem clear_retained_skips_control_counterexample :
    clientUsable unstableDashboard (some 0) = true ∧
    mqttConfig.publishTopics.control = "esp32/control" ∧
    mqttConfig.publishTopics.control ∉
      ((clearRetainedMessages (fun _ _ => false) (some 0) unstableDashboard).1.published.map
        (fun call => call.topic)) := by
  decide

/-- C18 (amended): for every client that exists and is not disconnected,
`clearRetainedMessages` calls `publish` with an empty payload, `retain = true`
and `qos = 0` on each of the six entries of `mqttConfig.subscribeTopics` and
on the presence topic `auralink/dashboard/status`; these seven calls are all
it makes, so none goes to the control topic `esp32/control`. -/
theorem clear_retained_publishes_empty_retained (throwsOn : PublishFailures) (w : Dashboard)
    (i : Nat) (c : MqttClient) (hc : w.clients.get? i = some c)
    (hd : c.disconnected = false) :
    (∀ topic ∈ mqttConfig.subscribeTopics,
      ({ topic := topic, payload := "", retain := true, qos := 0 } : PublishCall) ∈
        (clearRetainedMessages throwsOn (some i) w).1.published) ∧
    ({ topic := statusTopic, payload := "", retain := true, qos := 0 } : PublishCall) ∈
      (clearRetainedMessages throwsOn (some i) w).1.published ∧
    mqttConfig.subscribeTopics.length = 6 ∧
    (clearRetainedMessages throwsOn (some i) w).1.published =
      w.published ++ (statusTopic :: mqttConfig.subscribeTopics).map (fun topic =>
        ({ topic := topic, payload := "", retain := true, qos := 0 } : PublishCall)) ∧
    mqttConfig.publishTopics.control ∉ statusTopic :: mqttConfig.subscribeTopics := by
  rw [clearRetainedMessages_of_usable throwsOn (some i) w (clientUsable_of_connected w i c hc hd)]
  refine ⟨?_, ?_, rfl, rfl, by decide⟩
  · intro topic htopic
    apply List.mem_append_right
    apply List.mem_map.mpr
    exact ⟨topic, by
      have : mqttConfig.subscribeTopics ⊆ topicsToClear := by decide
      exact this htopic, rfl⟩
  · apply List.mem_append_right
    apply List.mem_map.mpr
    exact ⟨statusTopic, by decide, rfl⟩

/-- Witness for C18 (amended) on the connected client of `unstableDashboard`. -/
theorem clear_retained_publishes_empty_retained_witness :
    unstableDashboard.clients.get? 0 =
      some { connected := true, disconnected := false, heartbeatInterval := some 1 } ∧
    ({ topic := "esp32/display", payload := "", retain := true, qos := 0 } : PublishCall) ∈
      (clearRetainedMessages (fun _ _ => false) (some 0) unstableDashboard).1.published :=
  ⟨rfl,
    (clear_retained_publishes_empty_retained (fun _ _ => false) unstableDashboard 0
      { connected := true, disconnected := false, heartbeatInterval := some 1 } rfl rfl).1
      "esp32/display" (by decide)⟩

/-- C19: for every client that exists and is not disconnected, and whichever
`publish` calls throw, `clearRetainedMessages` makes exactly one `publish`
call on each of the seven topics of `topicsToClear`, in list order, changes
nothing else and does not throw; for a null client and for a disconnected
client it makes no `publish` call and changes nothing. -/
theorem clear_retained_is_best_effort (throwsOn : PublishFailures) (w : Dashboard) :
    (∀ (i : Nat) (c : MqttClient), w.clients.get? i = some c → c.disconnected = false →
      ((clearRetainedMessages throwsOn (some i) w).1.published.drop w.published.length).map
          (fun call => call.topic) = topicsToClear ∧
      (clearRetainedMessages throwsOn (some i) w).1.published.length =
        w.published.length + 7 ∧
      (clearRetainedMessages throwsOn (some i) w).1.published.take w.published.length =
        w.published ∧
      { (clearRetainedMessages throwsOn (some i) w).1 with published := w.published } = w ∧
      (clearRetainedMessages throwsOn (some i) w).2 = false) ∧
    clearRetainedMessages throwsOn none w = (w, false) ∧
    (∀ (i : Nat) (c : MqttClient), w.clients.get? i = some c → c.disconnected = true →
      clearRetainedMessages throwsOn (some i) w = (w, false)) := by
  refine ⟨?_, ?_, ?_⟩
  · intro i c hc hd
    rw [clearRetainedMessages_of_usable throwsOn (some i) w
      (clientUsable_of_connected w i c hc hd)]
    refine ⟨?_, ?_, ?_, rfl, rfl⟩
    · simp only [List.drop_left, List.map_map]
      exact List.map_id _
    · simp [topicsToClear]
    · simp
  · exact clearRetainedMessages_of_unusable throwsOn none w rfl
  · intro i c hc hd
    exact clearRetainedMessages_of_unusable throwsOn (some i) w (by
      unfold clientUsable
      simp only [hc, hd, Bool.not_true])

/-- Witness for C19: with `publish` throwing on the display and the presence
topic, the connected client of `unstableDashboard` still sees seven calls. -/
theorem clear_retained_is_best_effort_witness :
    (clearRetainedMessages
        (fun topic _ => topic == "esp32/display" || topic == "auralink/dashboard/status")
        (some 0) unstableDashboard).1.published.length
      = unstableDashboard.published.length + 7 ∧
    (clearRetainedMessages
        (fun topic _ => topic == "esp32/display" || topic == "auralink/dashboard/status")
        (some 0) unstableDashboard).2 = false :=
  have h := (clear_retained_is_best_effort
    (fun topic _ => topic == "esp32/display" || topic == "auralink/dashboard/status")
    unstableDashboard).1 0
    { connected := true, disconnected := false, heartbeatInterval := some 1 } rfl rfl
  ⟨h.2.1, h.2.2.2.2⟩

/-! ## Theorems: the transport event handlers -/

theorem not_mem_intervals_clearInterval (h : Nat) (w : Dashboard) :
    h ∉ (clearInterval h w).intervals := by
  unfold clearInterval
  simp

theorem clearHeartbeat_of_handle (client : Nat) (w : Dashboard) (c : MqttClient) (h : Nat)
    (hc : w.clients.get? client = some c) (hh : c.heartbeatInterval = some h)
    (h0 : h ≠ 0) : clearHeartbeat client w = clearInterval h w := by
  unfold clearHeartbeat
  simp only [hc, hh]
  rw [if_pos (by simpa using h0)]

theorem clearHeartbeat_fields (client : Nat) (w : Dashboard) :
    clearHeartbeat client w = { w with intervals := (clearHeartbeat client w).intervals } := by
  unfold clearHeartbeat clearInterval
  split
  · split
    · split <;> rfl
    · rfl
  · rfl

/-- C12: in every manager state, `ConnectedUnstable`, `ConnectedStable` and
`Reconnecting` included, the `close` handler of a client yields connection
status `'Disconnected'` with the stable flag false, the in-flight flag false
and the client reference cleared; the heartbeat interval whose handle is
stored on that client (a positive number, as `setInterval` returns) is no
longer running, and both lease keys are removed from the store.  The
`disconnect` handler yields the same state. -/
theorem close_resets_and_releases (w : Dashboard) (client : Nat) :
    (onClose client w).connectionStatus = "Disconnected" ∧
    (onClose client w).isStableConnection = false ∧
    (onClose client w).connectionAttemptRef = false ∧
    (onClose client w).clientRef = none ∧
    (∀ (c : MqttClient) (h : Nat), w.clients.get? client = some c →
      c.heartbeatInterval = some h → h ≠ 0 → h ∉ (onClose client w).intervals) ∧
    getItem (onClose client w).localStorage SESSION_KEY = none ∧
    getItem (onClose client w).localStorage HEARTBEAT_KEY = none ∧
    onDisconnect client w = onClose client w := by
  have hfields := clearHeartbeat_fields client
    { w with connectionStatus := "Disconnected", isStableConnection := false,
             connectionAttemptRef := false }
  refine ⟨?_, ?_, ?_, rfl, ?_, ?_, ?_, rfl⟩
  · unfold onClose
    simp only
    rw [hfields]
  · unfold onClose
    simp only
    rw [hfields]
  · unfold onClose
    simp only
    rw [hfields]
  · intro c h hc hh h0
    have hclear := clearHeartbeat_of_handle client
      { w with connectionStatus := "Disconnected", isStableConnection := false,
               connectionAttemptRef := false } c h hc hh h0
    unfold onClose
    simp only
    rw [hclear]
    exact not_mem_intervals_clearInterval h _
  · exact getItem_releaseSession_session _
  · exact getItem_releaseSession_heartbeat _

/-- Witness for C12 on the `ConnectedUnstable` dashboard: interval 1 was
running and is stopped by the `close` handler. -/
theorem close_resets_and_releases_witness :
    isConnectedUnstable unstableDashboard = true ∧
    1 ∈ unstableDashboard.intervals ∧
    1 ∉ (onClose 0 unstableDashboard).intervals ∧
    (onClose 0 unstableDashboard).localStorage = [] :=
  ⟨by decide, by decide,
    (close_resets_and_releases unstableDashboard 0).2.2.2.2.1
      { connected := true, disconnected := false, heartbeatInterval := some 1 } 1 rfl rfl
      (by decide),
    by decide⟩

theorem connectionStatus_onConnect (throwsOn : PublishFailures) (client : Nat)
    (w : Dashboard) : (onConnect throwsOn client w).connectionStatus = "Connected" := by
  unfold onConnect
  simp only
  split <;> rfl

theorem isStableConnection_onClose (client : Nat) (w : Dashboard) :
    (onClose client w).isStableConnection = false := by
  have hfields := clearHeartbeat_fields client
    { w with connectionStatus := "Disconnected", isStableConnection := false,
             connectionAttemptRef := false }
  unfold onClose
  simp only
  rw [hfields]

theorem stable_only_while_connected_step (w : Dashboard) (e : ManagerEvent)
    (htimer : e = ManagerEvent.stabilizationTimerFired → w.connectionStatus = "Connected") :
    (e.apply w).isStableConnection = true → (e.apply w).connectionStatus = "Connected" := by
  cases e with
  | connectAcknowledged =>
    intro _
    exact connectionStatus_onConnect _ 0 w
  | stabilizationTimerFired =>
    intro hs
    have hc := htimer rfl
    show (onStabilize w).connectionStatus = "Connected"
    unfold onStabilize
    split
    · exact hc
    · exact hc
  | error err =>
    intro hs
    exact absurd (show (onError err w).isStableConnection = true from hs) (by simp [onError])
  | offline =>
    intro hs
    exact absurd (show (onOffline w).isStableConnection = true from hs) (by simp [onOffline])
  | reconnect =>
    intro hs
    exact absurd (show (onReconnect w).isStableConnection = true from hs) (by simp [onReconnect])
  | close =>
    intro hs
    have := isStableConnection_onClose 0 w
    exact absurd (show (onClose 0 w).isStableConnection = true from hs) (by simp [this])
  | disconnect =>
    intro hs
    have := isStableConnection_onClose 0 w
    exact absurd (show (onClose 0 w).isStableConnection = true from hs) (by simp [this])

theorem stable_only_while_connected_of_timely (evs : List ManagerEvent) :
    ∀ w : Dashboard, (w.isStableConnection = true → w.connectionStatus = "Connected") →
      timersFireWhileConnected w evs = true →
      (runEvents w evs).isStableConnection = true →
      (runEvents w evs).connectionStatus = "Connected" := by
  induction evs with
  | nil => intro w hinv _; exact hinv
  | cons e es ih =>
    intro w hinv ht
    simp only [timersFireWhileConnected, Bool.and_eq_true] at ht
    obtain ⟨hnow, hrest⟩ := ht
    apply ih (e.apply w) _ hrest
    apply stable_only_while_connected_step w e
    intro he
    subst he
    simpa using hnow

/-- C20, evaluated at the failing input: from the connecting dashboard
(status `'Disconnected'`, stable flag false) the events connect acknowledged,
close, stabilisation timer fired lead to a state whose stable flag is true
while the connection status is `'Disconnected'`. -/
theorem stable_flag_set_after_close :
    connectingDashboard.connectionStatus = "Disconnected" ∧
    connectingDashboard.isStableConnection = false ∧
    (runEvents connectingDashboard lateTimerTrace).isStableConnection = true ∧
    (runEvents connectingDashboard lateTimerTrace).connectionStatus = "Disconnected" := by
  decide

/-! ## Theorems: inbound messages -/

/-- C13: for every history and every message on a numeric topic whose payload
parses to not-a-number (by `parseFloat` for temperature and humidity, by
`parseInt` for `mq135`), the `message` handler returns a state whose history,
label list and all three series included, is the history it was given. -/
theorem nan_payload_keeps_history (parseFloat : String → JSNum) (timeLabel : String)
    (topic payload : String) (s : Telemetry) (key : SensorType)
    (hnan : numericReading parseFloat topic payload = some (key, JSNum.nan)) :
    (onMessage parseFloat timeLabel topic payload s).historicalData = s.historicalData ∧
    (onMessage parseFloat timeLabel topic payload s).historicalData.labels
      = s.historicalData.labels ∧
    ∀ j : SensorType,
      (onMessage parseFloat timeLabel topic payload s).historicalData.series j
        = s.historicalData.series j := by
  have h : (onMessage parseFloat timeLabel topic payload s).historicalData
      = s.historicalData := by
    unfold numericReading at hnan
    unfold onMessage
    by_cases h1 : topic = "esp32/sensors/temperature"
    · rw [if_pos h1] at hnan
      have hv : parseFloat payload = JSNum.nan := by
        simp only [Option.some.injEq, Prod.mk.injEq] at hnan
        exact hnan.2
      subst h1
      simp [hv, updateHistoricalData, isNaN]
    · rw [if_neg h1] at hnan
      by_cases h2 : topic = "esp32/sensors/humidity"
      · rw [if_pos h2] at hnan
        have hv : parseFloat payload = JSNum.nan := by
          simp only [Option.some.injEq, Prod.mk.injEq] at hnan
          exact hnan.2
        subst h2
        simp [hv, updateHistoricalData, isNaN]
      · rw [if_neg h2] at hnan
        by_cases h3 : topic = "esp32/sensors/mq135"
        · rw [if_pos h3] at hnan
          have hv : parseIntNumber payload = JSNum.nan := by
            simp only [Option.some.injEq, Prod.mk.injEq] at hnan
            exact hnan.2
          subst h3
          simp [hv, updateHistoricalData, isNaN]
        · rw [if_neg h3] at hnan
          exact absurd hnan (by simp)
  exact ⟨h, by rw [h], fun j => by rw [h]⟩

/-- Witness for C13: the payload `abc` on the temperature topic leaves the
one-slot history of `sampleTelemetry` as it is. -/
theorem nan_payload_keeps_history_witness :
    numericReading integerParseFloat "esp32/sensors/temperature" "abc"
      = some (SensorType.temperature, JSNum.nan) ∧
    (onMessage integerParseFloat "10:00:01" "esp32/sensors/temperature" "abc"
      sampleTelemetry).historicalData = sampleTelemetry.historicalData :=
  ⟨by decide,
    (nan_payload_keeps_history integerParseFloat "10:00:01" "esp32/sensors/temperature"
      "abc" sampleTelemetry SensorType.temperature (by decide)).1⟩

/-- C14: for every payload `p`, the empty string included, a message on
`esp32/display`, `esp32/email_summary` or `esp32/sensors/led` sets
`displayMessage`, `emailSummary` or `sensorData.led` to `p` and leaves the
history and every other latest-value slot unchanged; a message on a topic
outside `mqttConfig.subscribeTopics` leaves the whole state unchanged. -/
theorem text_topics_overwrite_verbatim (parseFloat : String → JSNum) (timeLabel : String)
    (p : String) (s : Telemetry) :
    onMessage parseFloat timeLabel "esp32/display" p s = { s with displayMessage := p } ∧
    onMessage parseFloat timeLabel "esp32/email_summary" p s = { s with emailSummary := p } ∧
    onMessage parseFloat timeLabel "esp32/sensors/led" p s
      = { s with sensorData := { s.sensorData with led := p } } ∧
    (∀ topic : String, topic ∉ mqttConfig.subscribeTopics →
      onMessage parseFloat timeLabel topic p s = s) := by
  refine ⟨?_, ?_, ?_, ?_⟩
  · unfold onMessage
    simp only [show ¬ ("esp32/display" = "esp32/sensors/temperature") by decide,
      show ¬ ("esp32/display" = "esp32/sensors/humidity") by decide,
      show ¬ ("esp32/display" = "esp32/sensors/mq135") by decide,
      show ¬ ("esp32/display" = "esp32/sensors/led") by decide, if_false, if_true]
  · unfold onMessage
    simp only [show ¬ ("esp32/email_summary" = "esp32/sensors/temperature") by decide,
      show ¬ ("esp32/email_summary" = "esp32/sensors/humidity") by decide,
      show ¬ ("esp32/email_summary" = "esp32/sensors/mq135") by decide,
      show ¬ ("esp32/email_summary" = "esp32/sensors/led") by decide,
      show ¬ ("esp32/email_summary" = "esp32/display") by decide, if_false, if_true]
  · unfold onMessage
    simp only [show ¬ ("esp32/sensors/led" = "esp32/sensors/temperature") by decide,
      show ¬ ("esp32/sensors/led" = "esp32/sensors/humidity") by decide,
      show ¬ ("esp32/sensors/led" = "esp32/sensors/mq135") by decide,
      show ¬ ("esp32/sensors/led" = "esp32/display") by decide,
      show ¬ ("esp32/sensors/led" = "esp32/email_summary") by decide, if_false, if_true]
  · intro topic htopic
    simp only [mqttConfig.subscribeTopics, List.mem_cons, List.mem_singleton, not_or,
      List.not_mem_nil, or_false] at htopic
    obtain ⟨h1, h2, h3, h4, h5, h6⟩ := htopic
    unfold onMessage
    simp only [h1, h2, h3, h4, h5, h6, if_false]

/-- Witness for C14: an empty payload on the display topic clears
`displayMessage` only, and a message on `esp32/control` changes nothing. -/
theorem text_topics_overwrite_verbatim_witness :
    onMessage integerParseFloat "10:00:01" "esp32/display" "" sampleTelemetry
      = { sampleTelemetry with displayMessage := "" } ∧
    onMessage integerParseFloat "10:00:01" "esp32/control" "refresh" sampleTelemetry
      = sampleTelemetry :=
  ⟨(text_topics_overwrite_verbatim integerParseFloat "10:00:01" "" sampleTelemetry).1,
    (text_topics_overwrite_verbatim integerParseFloat "10:00:01" "refresh"
      sampleTelemetry).2.2.2 "esp32/control" (by decide)⟩

/-- C15: `releaseSession` yields a store that holds neither the session marker
nor the heartbeat key and in which every other key is bound as before; on a
store that holds neither key it returns the store unchanged, and applying it
twice gives the same store as applying it once. -/
theorem releaseSession_removes_lease_only (store : Store) :
    getItem (releaseSession store) SESSION_KEY = none ∧
    getItem (releaseSession store) HEARTBEAT_KEY = none ∧
    (∀ key : String, key ≠ SESSION_KEY → key ≠ HEARTBEAT_KEY →
      getItem (releaseSession store) key = getItem store key) ∧
    (getItem store SESSION_KEY = none → getItem store HEARTBEAT_KEY = none →
      releaseSession store = store) ∧
    releaseSession (releaseSession store) = releaseSession store := by
  have hno : ∀ s : Store, getItem s SESSION_KEY = none → getItem s HEARTBEAT_KEY = none →
      releaseSession s = s := by
    intro s hs hh
    unfold releaseSession
    rw [removeItem_of_getItem_none SESSION_KEY s hs, removeItem_of_getItem_none HEARTBEAT_KEY s hh]
  exact ⟨getItem_releaseSession_session store, getItem_releaseSession_heartbeat store,
    fun key h1 h2 => getItem_releaseSession_other store key h1 h2, hno store,
    hno _ (getItem_releaseSession_session store) (getItem_releaseSession_heartbeat store)⟩

/-- Witness for C15: releasing a store that holds a lease and one other key
keeps the other key, and a store without a lease is returned as it is. -/
theorem releaseSession_removes_lease_only_witness :
    getItem (releaseSession (claimSession 1000 [("theme", "dark")])) "theme" = some "dark" ∧
    releaseSession [("theme", "dark")] = [("theme", "dark")] :=
  ⟨((releaseSession_removes_lease_only (claimSession 1000 [("theme", "dark")])).2.2.1
      "theme" (by decide) (by decide)).trans (by decide),
    (releaseSession_removes_lease_only [("theme", "dark")]).2.2.2.1 (by decide) (by decide)⟩

/-- C16: in every history reachable from the empty history by
`updateHistoricalData` calls, the label array and the temperature, humidity
and `mq135` arrays have the same length, so at every slot index each of the
three arrays holds an entry, a number or `null`. -/
theorem reachable_history_aligned (us : List Update) :
    (runUpdates us emptyHistory).temperature.length
      = (runUpdates us emptyHistory).labels.length ∧
    (runUpdates us emptyHistory).humidity.length
      = (runUpdates us emptyHistory).labels.length ∧
    (runUpdates us emptyHistory).mq135.length
      = (runUpdates us emptyHistory).labels.length ∧
    ∀ (j : SensorType) (i : Nat), i < (runUpdates us emptyHistory).labels.length →
      ∃ x : Option JSNum, ((runUpdates us emptyHistory).series j).get? i = some x := by
  have hal := aligned_runUpdates us emptyHistory aligned_emptyHistory
  refine ⟨hal.1, hal.2.1, hal.2.2, ?_⟩
  intro j i hi
  have hlen := (aligned_iff_series _).mp hal j
  have hi' : i < ((runUpdates us emptyHistory).series j).length := by rw [hlen]; exact hi
  exact ⟨((runUpdates us emptyHistory).series j).get ⟨i, hi'⟩, List.get?_eq_get hi'⟩

/-- Witness for C16 on the two readings of `backwardUpdates`: slot 1 of the
humidity array exists although no humidity was ever reported. -/
theorem reachable_history_aligned_witness :
    ∃ x : Option JSNum,
      ((runUpdates backwardUpdates emptyHistory).series SensorType.humidity).get? 1 = some x :=
  (reachable_history_aligned backwardUpdates).2.2.2 SensorType.humidity 1 (by decide)

/-! ## Theorems: the order of the labels in the window -/

theorem getLast_ne_of_shouldAddNewPoint (d : HistoricalData) (t : String)
    (h : shouldAddNewPoint d t = true) : d.labels = [] ∨ d.labels.getLast? ≠ some t := by
  unfold shouldAddNewPoint at h
  rw [List.getLast?_eq_getElem?]
  simp only [Bool.or_eq_true, beq_iff_eq, bne_iff_ne, ne_eq, List.length_eq_zero,
    List.get?_eq_getElem?] at h
  exact h

theorem labels_addNewPoint_cases (d : HistoricalData) (t : String) :
    ((addNewPoint t d).labels = d.labels ++ [t] ∧
      (d.labels = [] ∨ d.labels.getLast? ≠ some t)) ∨
    (addNewPoint t d).labels = d.labels := by
  by_cases h : shouldAddNewPoint d t = true
  · exact Or.inl ⟨labels_addNewPoint d t h, getLast_ne_of_shouldAddNewPoint d t h⟩
  · right
    unfold addNewPoint
    rw [if_neg h]

theorem labels_evictOldest_sublist (d : HistoricalData) :
    (evictOldest d).labels.Sublist d.labels := by
  unfold evictOldest
  split
  · exact List.drop_sublist 1 d.labels
  · exact List.Sublist.refl _

theorem labels_updateHistoricalData_sublist (k : SensorType) (v : JSNum) (t : String)
    (d : HistoricalData) :
    (updateHistoricalData k v t d).labels.Sublist (addNewPoint t d).labels ∨
    (updateHistoricalData k v t d).labels = d.labels := by
  unfold updateHistoricalData
  split
  · exact Or.inr rfl
  · left
    have h := labels_evictOldest_sublist (beforeEviction k v t d)
    unfold beforeEviction at h ⊢
    rw [labels_writeValue] at h
    exact h

theorem lt_of_sorted_of_le_of_getLast_ne (L : List String) (t : String)
    (hs : L.Sorted (· < ·)) (hle : ∀ l ∈ L, l ≤ t)
    (hlast : L = [] ∨ L.getLast? ≠ some t) : ∀ l ∈ L, l < t := by
  rcases List.eq_nil_or_concat L with hnil | ⟨L', a, rfl⟩
  · intro l hl
    rw [hnil] at hl
    simp at hl
  · have hne : a ≠ t := by
      rcases hlast with h | h
      · simp at h
      · simpa using h
    have hat : a < t := lt_of_le_of_ne (hle a (by simp)) hne
    intro l hl
    simp only [List.concat_eq_append, List.mem_append, List.mem_singleton] at hl
    rcases hl with h | h
    · have hs' := hs
      simp only [List.concat_eq_append] at hs'
      have := (List.pairwise_append.mp hs').2.2 l h a (by simp)
      exact lt_trans this hat
    · rw [h]; exact hat

theorem sorted_labels_updateHistoricalData (k : SensorType) (v : JSNum) (t : String)
    (d : HistoricalData) (hs : d.labels.Sorted (· < ·)) (hle : ∀ l ∈ d.labels, l ≤ t) :
    (updateHistoricalData k v t d).labels.Sorted (· < ·) ∧
    ∀ l ∈ (updateHistoricalData k v t d).labels, l ∈ d.labels ∨ l = t := by
  have hadd : (addNewPoint t d).labels.Sorted (· < ·) ∧
      ∀ l ∈ (addNewPoint t d).labels, l ∈ d.labels ∨ l = t := by
    rcases labels_addNewPoint_cases d t with ⟨heq, hnew⟩ | heq
    · rw [heq]
      refine ⟨?_, ?_⟩
      · apply List.pairwise_append.mpr
        refine ⟨hs, List.pairwise_singleton _ _, ?_⟩
        intro l hl b hb
        simp only [List.mem_singleton] at hb
        rw [hb]
        exact lt_of_sorted_of_le_of_getLast_ne d.labels t hs hle hnew l hl
      · intro l hl
        simpa using hl
    · rw [heq]
      exact ⟨hs, fun l hl => Or.inl hl⟩
  rcases labels_updateHistoricalData_sublist k v t d with hsub | heq
  · exact ⟨hadd.1.sublist hsub, fun l hl => hadd.2 l (hsub.subset hl)⟩
  · rw [heq]
    exact ⟨hs, fun l hl => Or.inl hl⟩

theorem sorted_labels_runUpdates (us : List Update) : ∀ (d : HistoricalData),
    d.labels.Sorted (· < ·) →
    (∀ l ∈ d.labels, ∀ u ∈ us, l ≤ u.timeLabel) →
    (us.map (fun u => u.timeLabel)).Sorted (· ≤ ·) →
    (runUpdates us d).labels.Sorted (· < ·) := by
  induction us with
  | nil => intro d hs _ _; exact hs
  | cons u us ih =>
    intro d hs hle hsorted
    rw [runUpdates_cons]
    simp only [List.map_cons, List.sorted_cons, List.mem_map, forall_exists_index, and_imp,
      forall_apply_eq_imp_iff₂] at hsorted
    obtain ⟨hu, hrest⟩ := hsorted
    have hstep := sorted_labels_updateHistoricalData u.sensorType u.value u.timeLabel d hs
      (fun l hl => hle l hl u (by simp))
    apply ih _ hstep.1 _ hrest
    intro l hl x hx
    rcases hstep.2 l hl with h | h
    · exact hle l h x (List.mem_cons_of_mem _ hx)
    · rw [h]
      exact hu x hx

/-- C17 as stated fails: the labels are whatever the calls supply, and two
readings labelled `10:00:05` and then `10:00:01` leave the window with the
labels in that order, which is not non-decreasing. -/
theorem labels_follow_arrival_counterexample :
    (runUpdates backwardUpdates emptyHistory).labels = ["10:00:05", "10:00:01"] ∧
    ¬ (runUpdates backwardUpdates emptyHistory).labels.Sorted (· ≤ ·) := by
  have hl : (runUpdates backwardUpdates emptyHistory).labels = ["10:00:05", "10:00:01"] := by
    decide
  refine ⟨hl, ?_⟩
  rw [hl]
  intro hsorted
  have hle : "10:00:05" ≤ "10:00:01" := by
    simpa using hsorted
  have hlt : "10:00:01" < "10:00:05" := String.lt_iff_toList_lt.mpr (by decide)
  exact absurd hle (not_le.mpr hlt)

/-- C17 (amended): for every sequence of `updateHistoricalData` calls, applied
to the empty history, whose time labels are non-decreasing in call order, the
labels held in the window are non-decreasing, and indeed strictly increasing,
from the oldest slot to the newest. -/
theorem labels_sorted_of_sorted_arrival (us : List Update)
    (hsorted : (us.map (fun u => u.timeLabel)).Sorted (· ≤ ·)) :
    (runUpdates us emptyHistory).labels.Sorted (· < ·) ∧
    (runUpdates us emptyHistory).labels.Sorted (· ≤ ·) := by
  have h := sorted_labels_runUpdates us emptyHistory List.sorted_nil
    (fun l hl => by simp [emptyHistory] at hl) hsorted
  exact ⟨h, h.imp (fun hab => le_of_lt hab)⟩

theorem forwardUpdates_sorted :
    (forwardUpdates.map (fun u => u.timeLabel)).Sorted (· ≤ ·) := by
  have h01 : "10:00:00" ≤ "10:00:01" := String.le_iff_toList_le.mpr (by decide)
  have hl : forwardUpdates.map (fun u => u.timeLabel) = ["10:00:00", "10:00:00", "10:00:01"] :=
    rfl
  rw [hl]
  refine List.Pairwise.cons ?_ (List.Pairwise.cons ?_ (List.pairwise_singleton _ _))
  · intro b hb
    simp only [List.mem_cons, List.mem_singleton, List.not_mem_nil, or_false] at hb
    rcases hb with h | h
    · rw [h]
    · rw [h]; exact h01
  · intro b hb
    simp only [List.mem_singleton] at hb
    rw [hb]; exact h01

/-- Witness for C17 (amended): the three readings of `forwardUpdates` leave the
labels `10:00:00`, `10:00:01`, strictly increasing. -/
theorem labels_sorted_of_sorted_arrival_witness :
    (forwardUpdates.map (fun u => u.timeLabel)).Sorted (· ≤ ·) ∧
    (runUpdates forwardUpdates emptyHistory).labels = ["10:00:00", "10:00:01"] ∧
    (runUpdates forwardUpdates emptyHistory).labels.Sorted (· < ·) :=
  ⟨forwardUpdates_sorted, by decide,
    (labels_sorted_of_sorted_arrival forwardUpdates forwardUpdates_sorted).1⟩

/-! ## Theorems: nulls form a prefix of each series -/

theorem numberStays_trans (a b c : Option JSNum) (hab : numberStays a b)
    (hbc : numberStays b c) : numberStays a c :=
  fun ha => hbc (hab ha)

theorem chain_concat_placeholder (l : List (Option JSNum)) (h : l.Chain' numberStays) :
    (l ++ [placeholder l]).Chain' numberStays := by
  rw [placeholder_eq_getLast]
  apply List.Chain'.append h (List.chain'_singleton _)
  intro a ha b hb
  simp only [List.head?_cons, Option.mem_def, Option.some.injEq] at hb
  rw [Option.mem_def] at ha
  rw [← hb, ha]
  exact fun hx => hx

theorem chain_set_last (l : List (Option JSNum)) (v : JSNum) (h : l.Chain' numberStays) :
    (l.set (l.length - 1) (some v)).Chain' numberStays := by
  by_cases hne : l = []
  · rw [hne]
    exact List.chain'_nil
  · rw [set_last_eq_dropLast_concat l (some v) hne]
    apply List.Chain'.append h.init (List.chain'_singleton _)
    intro a _ b hb
    simp only [List.head?_cons, Option.mem_def, Option.some.injEq] at hb
    rw [← hb]
    exact fun _ => rfl

theorem series_addNewPoint_of_not (d : HistoricalData) (t : String) (j : SensorType)
    (hnew : shouldAddNewPoint d t = false) : (addNewPoint t d).series j = d.series j := by
  unfold addNewPoint
  rw [hnew]
  rfl

theorem series_evictOldest_cases (d : HistoricalData) (j : SensorType) :
    (evictOldest d).series j = (d.series j).drop 1 ∨ (evictOldest d).series j = d.series j := by
  by_cases h : MAX_DATA_POINTS < d.labels.length
  · exact Or.inl (series_evictOldest d j h)
  · right
    unfold evictOldest
    rw [if_neg h]

theorem chain_series_updateHistoricalData (k : SensorType) (v : JSNum) (t : String)
    (d : HistoricalData) (j : SensorType) (h : (d.series j).Chain' numberStays) :
    ((updateHistoricalData k v t d).series j).Chain' numberStays := by
  unfold updateHistoricalData
  split
  · exact h
  · have hadd : ((addNewPoint t d).series j).Chain' numberStays := by
      cases hs : shouldAddNewPoint d t with
      | true =>
        rw [series_addNewPoint d t j hs]
        exact chain_concat_placeholder _ h
      | false =>
        rw [series_addNewPoint_of_not d t j hs]
        exact h
    have hwrite : ((beforeEviction k v t d).series j).Chain' numberStays := by
      unfold beforeEviction
      by_cases hjk : j = k
      · subst hjk
        rw [series_writeValue_same]
        exact chain_set_last _ v hadd
      · rw [series_writeValue_other k j v _ hjk]
        exact hadd
    rcases series_evictOldest_cases (beforeEviction k v t d) j with he | he
    · rw [he]
      exact hwrite.drop 1
    · rw [he]
      exact hwrite

theorem noNaN_series_updateHistoricalData (k : SensorType) (v : JSNum) (t : String)
    (d : HistoricalData) (j : SensorType) (h : NoNaN (d.series j)) :
    NoNaN ((updateHistoricalData k v t d).series j) := by
  unfold updateHistoricalData
  cases hv : isNaN v with
  | true => simpa using h
  | false =>
    simp only [Bool.false_eq_true, if_false]
    have hadd : NoNaN ((addNewPoint t d).series j) := by
      cases hs : shouldAddNewPoint d t with
      | true =>
        rw [series_addNewPoint d t j hs, placeholder_eq_getLast]
        intro x hx
        rcases List.mem_append.mp hx with hx | hx
        · exact h x hx
        · simp only [List.mem_singleton] at hx
          cases hl : (d.series j).getLast? with
          | none => rw [hl] at hx; simp at hx
          | some a =>
            rw [hl] at hx
            simp only [Option.getD_some] at hx
            exact h x (hx ▸ List.mem_of_getLast?_eq_some hl)
      | false =>
        rw [series_addNewPoint_of_not d t j hs]
        exact h
    have hwrite : NoNaN ((beforeEviction k v t d).series j) := by
      unfold beforeEviction
      by_cases hjk : j = k
      · subst hjk
        rw [series_writeValue_same]
        intro x hx
        rcases List.mem_or_eq_of_mem_set hx with hx | hx
        · exact hadd x hx
        · simp only [Option.some.injEq] at hx
          rw [hx]; exact hv
      · rw [series_writeValue_other k j v _ hjk]
        exact hadd
    rcases series_evictOldest_cases (beforeEviction k v t d) j with he | he
    · rw [he]
      exact fun x hx => hwrite x (List.mem_of_mem_drop hx)
    · rw [he]
      exact hwrite

theorem chain_series_runUpdates (us : List Update) (j : SensorType) : ∀ d : HistoricalData,
    (d.series j).Chain' numberStays → ((runUpdates us d).series j).Chain' numberStays := by
  induction us with
  | nil => intro d h; exact h
  | cons u us ih =>
    intro d h
    rw [runUpdates_cons]
    exact ih _ (chain_series_updateHistoricalData _ _ _ d j h)

theorem noNaN_series_runUpdates (us : List Update) (j : SensorType) : ∀ d : HistoricalData,
    NoNaN (d.series j) → NoNaN ((runUpdates us d).series j) := by
  induction us with
  | nil => intro d h; exact h
  | cons u us ih =>
    intro d h
    rw [runUpdates_cons]
    exact ih _ (noNaN_series_updateHistoricalData _ _ _ d j h)

theorem nullsFirst_iff_chain (l : List (Option JSNum)) :
    NullsFirst l ↔ l.Chain' numberStays := by
  constructor
  · intro h
    rw [List.chain'_iff_get]
    intro i hi ha
    have hi0 : i < l.length := by omega
    have hi1 : i + 1 < l.length := by omega
    cases hx : l.get ⟨i, hi0⟩ with
    | none => rw [hx] at ha; simp at ha
    | some x =>
      obtain ⟨y, hy⟩ := h i (i + 1) x (Nat.le_succ i) hi1 (by
        rw [List.get?_eq_get hi0, hx])
      rw [List.get?_eq_get hi1] at hy
      simp only [Option.some.injEq] at hy
      rw [hy]
      rfl
  · intro h i k x hik hk hx
    have hp : l.Pairwise numberStays :=
      (@List.chain'_iff_pairwise _ numberStays ⟨numberStays_trans⟩ l).mp h
    rcases Nat.lt_or_eq_of_le hik with hlt | heq
    · have hi : i < l.length := by omega
      have hR := List.pairwise_iff_get.mp hp ⟨i, hi⟩ ⟨k, hk⟩ hlt
      rw [List.get?_eq_get hi] at hx
      simp only [Option.some.injEq] at hx
      have hsome : (l.get ⟨k, hk⟩).isSome = true := hR (by rw [hx]; rfl)
      obtain ⟨y, hy⟩ := Option.isSome_iff_exists.mp hsome
      exact ⟨y, by rw [List.get?_eq_get hk, hy]⟩
    · subst heq
      exact ⟨x, hx⟩

/-- C21: in every history reachable from the empty history by
`updateHistoricalData` calls (with non-NaN values, and also when some values
are NaN, since those calls change nothing), within each of the three series
the null entries form a prefix: once an index holds a number, every later
index of the window holds a number, and no stored number is NaN.  The
eviction of the oldest slot keeps this property of a series. -/
theorem nulls_come_first (us : List Update) (j : SensorType) :
    (∀ (i k : Nat) (x : JSNum), i ≤ k →
      k < ((runUpdates us emptyHistory).series j).length →
      ((runUpdates us emptyHistory).series j).get? i = some (some x) →
      ∃ y : JSNum, ((runUpdates us emptyHistory).series j).get? k = some (some y) ∧
        isNaN y = false) ∧
    NullsFirst ((runUpdates us emptyHistory).series j) ∧
    (∀ d : HistoricalData, NullsFirst (d.series j) → NullsFirst ((evictOldest d).series j)) := by
  have hempty : (emptyHistory.series j) = [] := by cases j <;> rfl
  have hchain : ((runUpdates us emptyHistory).series j).Chain' numberStays :=
    chain_series_runUpdates us j emptyHistory (by rw [hempty]; exact List.chain'_nil)
  have hnan : NoNaN ((runUpdates us emptyHistory).series j) :=
    noNaN_series_runUpdates us j emptyHistory (by
      rw [hempty]
      intro x hx
      simp at hx)
  have hfirst := (nullsFirst_iff_chain _).mpr hchain
  refine ⟨?_, hfirst, ?_⟩
  · intro i k x hik hk hx
    obtain ⟨y, hy⟩ := hfirst i k x hik hk hx
    exact ⟨y, hy, hnan y (List.get?_mem hy)⟩
  · intro d hd
    rw [nullsFirst_iff_chain] at hd ⊢
    rcases series_evictOldest_cases d j with he | he
    · rw [he]
      exact hd.drop 1
    · rw [he]
      exact hd

/-- Witness for C21: in `lateHumidityUpdates` humidity is `null` in the first
slot and a number from the second slot on. -/
theorem nulls_come_first_witness :
    (runUpdates lateHumidityUpdates emptyHistory).humidity
      = [none, some (JSNum.num 60), some (JSNum.num 60)] ∧
    ∃ y : JSNum,
      ((runUpdates lateHumidityUpdates emptyHistory).series SensorType.humidity).get? 2
        = some (some y) ∧ isNaN y = false :=
  ⟨by decide,
    (nulls_come_first lateHumidityUpdates SensorType.humidity).1 1 2 (JSNum.num 60)
      (by decide) (by decide) (by decide)⟩


/-! ## Theorems: several instances over one store -/

theorem holds_lt (s : Browser) (i : Nat) (h : s.holds i = true) : i < s.size := by
  unfold Browser.holds at h
  simp only [Bool.and_eq_true, decide_eq_true_eq] at h
  exact h.1.1

theorem holds_iff (s : Browser) (i : Nat) :
    s.holds i = true ↔
      i < s.size ∧ (s.tabs i).alive = true ∧ holdsSession (s.tabs i).dash = true := by
  unfold Browser.holds
  simp only [Bool.and_eq_true, decide_eq_true_eq, and_assoc]

theorem holds_put_other (s : Browser) (i j : Nat) (tab : Tab) (hne : j ≠ i) :
    (s.put i tab).holds j = s.holds j := by
  unfold Browser.holds Browser.put
  simp only [hne, if_false]

theorem holds_put_same (s : Browser) (i : Nat) (tab : Tab) :
    (s.put i tab).holds i = true ↔
      i < s.size ∧ tab.alive = true ∧ holdsSession tab.dash = true := by
  rw [holds_iff]
  unfold Browser.put
  simp only [if_true]

theorem all_range_holds (s : Browser) (p : Nat → Bool)
    (h : (List.range s.size).all (fun j => !s.holds j || p j) = true) :
    ∀ j : Nat, s.holds j = true → p j = true := by
  intro j hj
  rw [List.all_eq_true] at h
  have := h j (List.mem_range.mpr (holds_lt s j hj))
  simpa [hj] using this

theorem exclusive_start (store : Store) (size : Nat) :
    (Browser.start store size).Exclusive := by
  intro i hi
  rw [holds_iff] at hi
  exact absurd hi.2.2 (by simp [Browser.start, freshTab, holdsSession, initialDashboard,
    clientActive])

theorem exclusive_put_quiet (s : Browser) (i : Nat) (tab : Tab) (hinv : s.Exclusive)
    (hstore : tab.dash.localStorage = s.store)
    (hwrite : tab.lastWrite = (s.tabs i).lastWrite)
    (hhold : (s.put i tab).holds i = true → s.holds i = true) :
    (s.put i tab).Exclusive := by
  have hold : ∀ j : Nat, (s.put i tab).holds j = true → s.holds j = true := by
    intro j hj
    by_cases hji : j = i
    · subst hji; exact hhold hj
    · rwa [holds_put_other s i j tab hji] at hj
  intro k hk
  obtain ⟨hlease, huniq⟩ := hinv k (hold k hk)
  refine ⟨?_, fun j hj => huniq j (hold j hj)⟩
  have hs : (s.put i tab).store = s.store := hstore
  rw [hs]
  by_cases hki : k = i
  · subst hki
    have : ((s.put k tab).tabs k).lastWrite = (s.tabs k).lastWrite := by
      unfold Browser.put
      simp only [if_true]
      exact hwrite
    rw [this]
    exact hlease
  · have : ((s.put i tab).tabs k) = s.tabs k := by
      unfold Browser.put
      simp only [hki, if_false]
    rw [this]
    exact hlease

theorem exclusive_put_release (s : Browser) (i : Nat) (tab : Tab)
    (hgone : (s.put i tab).holds i = false)
    (halone : ∀ j : Nat, s.holds j = true → j = i) :
    (s.put i tab).Exclusive := by
  intro k hk
  by_cases hki : k = i
  · subst hki
    rw [hgone] at hk
    exact absurd hk (by simp)
  · rw [holds_put_other s i k tab hki] at hk
    exact absurd (halone k hk) hki

theorem exclusive_put_write (s : Browser) (i : Nat) (tab : Tab)
    (hmarker : getItem tab.dash.localStorage SESSION_KEY = some "active")
    (hbeat : getItem tab.dash.localStorage HEARTBEAT_KEY
      = some (timestampString tab.lastWrite))
    (halone : ∀ j : Nat, s.holds j = true → j = i) :
    (s.put i tab).Exclusive := by
  have hone : ∀ j : Nat, (s.put i tab).holds j = true → j = i := by
    intro j hj
    by_cases hji : j = i
    · exact hji
    · rw [holds_put_other s i j tab hji] at hj
      exact halone j hj
  intro k hk
  have hki := hone k hk
  subst hki
  refine ⟨?_, fun j hj => hone j hj⟩
  have h1 : (s.put k tab).store = tab.dash.localStorage := rfl
  have h2 : (s.put k tab).tabs k = tab := by
    unfold Browser.put
    simp only [if_true]
  rw [h1, h2]
  exact ⟨hmarker, hbeat⟩

theorem checkActiveSession_of_admitted (now : Nat) (w : Dashboard)
    (h : admission now w = Admission.admitted) :
    checkActiveSession w.localStorage now = false := by
  unfold admission at h
  by_contra hc
  rw [if_pos (by simpa using hc)] at h
  exact absurd h (by decide)

theorem connectToMqtt_cases (now : Nat) (w : Dashboard) :
    (admission now w ≠ Admission.admitted ∧
      (connectToMqtt now false w).localStorage = w.localStorage ∧
      holdsSession (connectToMqtt now false w) = holdsSession w) ∨
    (admission now w = Admission.admitted ∧
      (connectToMqtt now false w).localStorage = claimSession now w.localStorage ∧
      holdsSession (connectToMqtt now false w) = true) := by
  unfold connectToMqtt
  cases hadm : admission now w with
  | conflict => exact Or.inl ⟨by decide, rfl, rfl⟩
  | busy => exact Or.inl ⟨by decide, rfl, rfl⟩
  | admitted => exact Or.inr ⟨rfl, rfl, rfl⟩

theorem localStorage_onConnect (throwsOn : PublishFailures) (client : Nat) (w : Dashboard) :
    (onConnect throwsOn client w).localStorage = w.localStorage := by
  unfold onConnect
  simp only
  split <;> rfl

theorem heartbeatTick_cases (now handle : Nat) (w : Dashboard) :
    ((handle ∈ w.intervals ∧ clientActive w = true) ∧
      heartbeatTick now handle w =
        { w with localStorage :=
            setItem HEARTBEAT_KEY (timestampString now) w.localStorage }) ∨
    (¬ (handle ∈ w.intervals ∧ clientActive w = true) ∧
      (heartbeatTick now handle w).localStorage = w.localStorage ∧
      holdsSession (heartbeatTick now handle w) = holdsSession w) := by
  unfold heartbeatTick
  by_cases h1 : handle ∈ w.intervals
  · by_cases h2 : clientActive w = true
    · left
      rw [if_pos h1, if_pos h2]
      exact ⟨⟨h1, h2⟩, rfl⟩
    · right
      rw [if_pos h1, if_neg h2]
      exact ⟨fun h => h2 h.2, rfl, rfl⟩
  · right
    rw [if_neg h1]
    exact ⟨fun h => h1 h.1, rfl, rfl⟩

theorem onClose_facts (client : Nat) (w : Dashboard) :
    holdsSession (onClose client w) = false ∧
    (onClose client w).localStorage = releaseSession w.localStorage := by
  have hfields := clearHeartbeat_fields client
    { w with connectionStatus := "Disconnected", isStableConnection := false,
             connectionAttemptRef := false }
  have hatt : (onClose client w).connectionAttemptRef = false := by
    unfold onClose
    simp only
    rw [hfields]
  have hstore := localStorage_clearHeartbeat client
    { w with connectionStatus := "Disconnected", isStableConnection := false,
             connectionAttemptRef := false }
  refine ⟨?_, ?_⟩
  · unfold holdsSession
    rw [hatt]
    rfl
  · unfold onClose
    simp only
    rw [hstore]

theorem exclusive_step (s : Browser) (e : TabEvent) (hinv : s.Exclusive)
    (hatomic : (∀ i t, e ≠ TabEvent.guards i t) ∧ (∀ i t, e ≠ TabEvent.proceed i t))
    (hpace : ∀ j : Nat, s.holds j = true → e.time < (s.tabs j).lastWrite + 15000)
    (hrel : (∀ i c t, e = TabEvent.closed i c t → ∀ j, s.holds j = true → j = i) ∧
      (∀ i t, e = TabEvent.unload i t → ∀ j, s.holds j = true → j = i))
    (hack : ∀ i c t, e = TabEvent.acknowledged i c t →
      (s.tabs i).dash.connectionAttemptRef = true) :
    (s.step e).Exclusive := by
  unfold Browser.step
  by_cases hvalid : e.tab < s.size ∧ (s.tabs e.tab).alive = true
  swap
  · rw [if_neg hvalid]
    exact hinv
  rw [if_pos hvalid]
  obtain ⟨hlt, halive⟩ := hvalid
  have hview : holdsSession (s.view e.tab) = holdsSession (s.tabs e.tab).dash := rfl
  have hvstore : (s.view e.tab).localStorage = s.store := rfl
  cases e with
  | connect i t =>
    simp only [TabEvent.tab] at hlt halive hview hvstore ⊢
    simp only [TabEvent.time] at hpace
    rcases connectToMqtt_cases t (s.view i) with ⟨hadm, hst, hh⟩ | ⟨hadm, hst, hh⟩
    · apply exclusive_put_quiet s i _ hinv
      · show (connectToMqtt t false (s.view i)).localStorage = s.store
        rw [hst]
        rfl
      · show (if admission t (s.view i) = Admission.admitted then t
          else (s.tabs i).lastWrite) = (s.tabs i).lastWrite
        rw [if_neg hadm]
      · intro hp
        rw [holds_put_same] at hp
        rw [holds_iff]
        refine ⟨hlt, halive, ?_⟩
        have h3 : holdsSession (connectToMqtt t false (s.view i)) = true := hp.2.2
        rw [hh] at h3
        exact h3
    · have hstale := checkActiveSession_of_admitted t (s.view i) hadm
      have hnone : ∀ j : Nat, s.holds j = true → j = i := by
        intro j hj
        exfalso
        obtain ⟨⟨hm, hb⟩, _⟩ := hinv j hj
        have hlive : checkActiveSession s.store t = true := by
          rw [checkActiveSession_of_lease s.store "active" (s.tabs j).lastWrite t hm
            (by decide) hb]
          have := hpace j hj
          exact decide_eq_true (by omega)
        rw [hvstore] at hstale
        rw [hstale] at hlive
        exact absurd hlive (by simp)
      apply exclusive_put_write s i _ _ _ hnone
      · show getItem (connectToMqtt t false (s.view i)).localStorage SESSION_KEY = some "active"
        rw [hst]
        exact getItem_claimSession_session t _
      · show getItem (connectToMqtt t false (s.view i)).localStorage HEARTBEAT_KEY
          = some (timestampString
              (if admission t (s.view i) = Admission.admitted then t
                else (s.tabs i).lastWrite))
        rw [hst, if_pos hadm]
        exact getItem_claimSession_heartbeat t _
  | guards i t => exact absurd rfl (hatomic.1 i t)
  | proceed i t => exact absurd rfl (hatomic.2 i t)
  | acknowledged i c t =>
    simp only [TabEvent.tab] at hlt halive hview hvstore ⊢
    apply exclusive_put_quiet s i _ hinv
    · show (onConnect (fun _ _ => false) c (markConnected c (s.view i))).localStorage = s.store
      rw [localStorage_onConnect]
      rfl
    · rfl
    · intro _
      rw [holds_iff]
      refine ⟨hlt, halive, ?_⟩
      unfold holdsSession
      rw [hack i c t rfl]
      rfl
  | tick i h t =>
    simp only [TabEvent.tab] at hlt halive hview hvstore ⊢
    rcases heartbeatTick_cases t h (s.view i) with ⟨hw, heq⟩ | ⟨hw, hst, hh⟩
    · have hholds : s.holds i = true := by
        rw [holds_iff]
        refine ⟨hlt, halive, ?_⟩
        rw [← hview]
        unfold holdsSession
        rw [hw.2]
        exact Bool.or_true _
      obtain ⟨⟨hm, _⟩, huniq⟩ := hinv i hholds
      apply exclusive_put_write s i _ _ _ huniq
      · show getItem (heartbeatTick t h (s.view i)).localStorage SESSION_KEY = some "active"
        rw [heq]
        show getItem (setItem HEARTBEAT_KEY (timestampString t) s.store) SESSION_KEY
          = some "active"
        rw [getItem_setItem_other _ _ _ _ session_ne_heartbeat]
        exact hm
      · show getItem (heartbeatTick t h (s.view i)).localStorage HEARTBEAT_KEY
          = some (timestampString
              (if h ∈ (s.view i).intervals ∧ clientActive (s.view i) = true then t
                else (s.tabs i).lastWrite))
        rw [heq, if_pos hw]
        exact getItem_setItem_same _ _ _
    · apply exclusive_put_quiet s i _ hinv
      · show (heartbeatTick t h (s.view i)).localStorage = s.store
        rw [hst]
        rfl
      · show (if h ∈ (s.view i).intervals ∧ clientActive (s.view i) = true then t
          else (s.tabs i).lastWrite) = (s.tabs i).lastWrite
        rw [if_neg hw]
      · intro hp
        rw [holds_put_same] at hp
        rw [holds_iff]
        refine ⟨hlt, halive, ?_⟩
        have h3 : holdsSession (heartbeatTick t h (s.view i)) = true := hp.2.2
        rw [hh] at h3
        exact h3
  | closed i c t =>
    simp only [TabEvent.tab] at hlt halive hview hvstore ⊢
    apply exclusive_put_release s i _ _ (hrel.1 i c t rfl)
    have hgone := (onClose_facts c (markClosed c (s.view i))).1
    by_contra hcon
    have hp : (s.put i (TabEvent.run (TabEvent.closed i c t) (s.tabs i) (s.view i))).holds i
        = true := by simpa using hcon
    rw [holds_put_same] at hp
    have h3 : holdsSession (onClose c (markClosed c (s.view i))) = true := hp.2.2
    rw [hgone] at h3
    exact absurd h3 (by simp)
  | unload i t =>
    simp only [TabEvent.tab] at hlt halive hview hvstore ⊢
    apply exclusive_put_release s i _ _ (hrel.2 i t rfl)
    by_contra hcon
    have hp : (s.put i (TabEvent.run (TabEvent.unload i t) (s.tabs i) (s.view i))).holds i
        = true := by simpa using hcon
    rw [holds_put_same] at hp
    have h3 : (TabEvent.run (TabEvent.unload i t) (s.tabs i) (s.view i)).alive = true := hp.2.1
    exact absurd h3 (by simp [TabEvent.run])

/-- The split call composes to the whole: in a tab that is not between the
guards and the claim, the guards of `connectToMqtt` followed at once by the
rest of the call give what the call gives when it runs to completion. -/
theorem proceed_after_guards_eq_connect (i t : Nat) (tab : Tab) (w : Dashboard)
    (hpending : tab.pending = false) :
    (TabEvent.proceed i t).run ((TabEvent.guards i t).run tab w)
        ((TabEvent.guards i t).run tab w).dash
      = (TabEvent.connect i t).run tab w := by
  obtain ⟨dash, alive, pending, lastWrite⟩ := tab
  simp only at hpending
  subst hpending
  cases hadm : admission t w <;> simp [TabEvent.run, connectToMqtt, hadm]

theorem browser_run_cons (s : Browser) (e : TabEvent) (es : List TabEvent) :
    s.run (e :: es) = (s.step e).run es := rfl

theorem exclusive_run (evs : List TabEvent) : ∀ s : Browser, s.Exclusive →
    atomicAdmissions evs = true → leaseKeptUp s evs = true → releasesOwn s evs = true →
    answersAttempt s evs = true →
    ∀ pre : List TabEvent, pre <+: evs → (s.run pre).Exclusive := by
  induction evs with
  | nil =>
    intro s hinv _ _ _ _ pre hpre
    rw [List.prefix_nil.mp hpre]
    exact hinv
  | cons e es ih =>
    intro s hinv hatomic hpace hrel hack pre hpre
    cases pre with
    | nil => exact hinv
    | cons e' pre' =>
      obtain ⟨rfl, hpre'⟩ := List.cons_prefix_cons.mp hpre
      simp only [atomicAdmissions, List.all_cons, Bool.and_eq_true] at hatomic
      simp only [leaseKeptUp, Bool.and_eq_true] at hpace
      simp only [releasesOwn, Bool.and_eq_true] at hrel
      simp only [answersAttempt, Bool.and_eq_true] at hack
      rw [browser_run_cons]
      refine ih (s.step e') (exclusive_step s e' hinv ?_ ?_ ?_ ?_) hatomic.2 hpace.2 hrel.2
        hack.2 pre' hpre'
      · refine ⟨?_, ?_⟩
        · intro i t he
          subst he
          exact absurd hatomic.1 (by simp)
        · intro i t he
          subst he
          exact absurd hatomic.1 (by simp)
      · intro j hj
        have := all_range_holds s (fun j => decide (e'.time < (s.tabs j).lastWrite + 15000))
          hpace.1 j hj
        simpa using this
      · refine ⟨?_, ?_⟩
        · intro i c t he j hj
          subst he
          have := all_range_holds s (fun j => j == i) hrel.1 j hj
          simpa using this
        · intro i t he j hj
          subst he
          have := all_range_holds s (fun j => j == i) hrel.1 j hj
          simpa using this
      · intro i c t he
        subst he
        exact hack.1

/-- C7 as stated fails in four ways, each with the heartbeat ticks of every
tab less than 15 s apart and each ending with two tabs that hold a session
over a live lease: a tab that never connected is unloaded and its handler
releases the lease of tab 0 (`strayReleaseTrace`); tab 0 is acknowledged late,
so its first tick comes more than 15 s after its claim (`slowConnectTrace`);
the transport of tab 0 reconnects by itself after its close handler released
the lease (`reconnectTrace`); two tabs pass the guards of `connectToMqtt`
before either claims (`raceTrace`).  Each trace breaks exactly one of the four
conditions of the amended claim. -/
theorem two_sessions_counterexample :
    (ticksPaced strayReleaseTrace = true ∧
      ((Browser.start [] 3).run strayReleaseTrace).holds 0 = true ∧
      ((Browser.start [] 3).run strayReleaseTrace).holds 2 = true ∧
      checkActiveSession ((Browser.start [] 3).run strayReleaseTrace).store 2000 = true ∧
      atomicAdmissions strayReleaseTrace = true ∧
      leaseKeptUp (Browser.start [] 3) strayReleaseTrace = true ∧
      releasesOwn (Browser.start [] 3) strayReleaseTrace = false ∧
      answersAttempt (Browser.start [] 3) strayReleaseTrace = true) ∧
    (ticksPaced slowConnectTrace = true ∧
      ((Browser.start [] 3).run slowConnectTrace).holds 0 = true ∧
      ((Browser.start [] 3).run slowConnectTrace).holds 1 = true ∧
      checkActiveSession ((Browser.start [] 3).run slowConnectTrace).store 26000 = true ∧
      atomicAdmissions slowConnectTrace = true ∧
      leaseKeptUp (Browser.start [] 3) slowConnectTrace = false ∧
      releasesOwn (Browser.start [] 3) slowConnectTrace = true ∧
      answersAttempt (Browser.start [] 3) slowConnectTrace = true) ∧
    (ticksPaced reconnectTrace = true ∧
      ((Browser.start [] 3).run reconnectTrace).holds 0 = true ∧
      ((Browser.start [] 3).run reconnectTrace).holds 1 = true ∧
      checkActiveSession ((Browser.start [] 3).run reconnectTrace).store 13000 = true ∧
      atomicAdmissions reconnectTrace = true ∧
      leaseKeptUp (Browser.start [] 3) reconnectTrace = true ∧
      releasesOwn (Browser.start [] 3) reconnectTrace = true ∧
      answersAttempt (Browser.start [] 3) reconnectTrace = false) ∧
    (ticksPaced raceTrace = true ∧
      ((Browser.start [] 3).run raceTrace).holds 0 = true ∧
      ((Browser.start [] 3).run raceTrace).holds 1 = true ∧
      checkActiveSession ((Browser.start [] 3).run raceTrace).store 3 = true ∧
      atomicAdmissions raceTrace = false ∧
      leaseKeptUp (Browser.start [] 3) raceTrace = true ∧
      releasesOwn (Browser.start [] 3) raceTrace = true ∧
      answersAttempt (Browser.start [] 3) raceTrace = true) := by
  decide

/-- C7 (amended): for every interleaving of `connectToMqtt` calls, connect
acknowledgements, heartbeat ticks, close events and page unloads in several
tabs over one shared store, in which every `connectToMqtt` call runs to
completion before another tab runs, every tab that holds a session last wrote
the lease (by its claim or a heartbeat tick) less than 15 s before each event,
no tab releases the lease while another tab holds a session, and every
connect acknowledgement answers an attempt in flight, at every moment at most
one tab holds a session, and the lease of that tab is live at every clock
value less than 15 s after its last write. -/
theorem one_session_at_a_time (store : Store) (size : Nat) (evs : List TabEvent)
    (hatomic : atomicAdmissions evs = true)
    (hpace : leaseKeptUp (Browser.start store size) evs = true)
    (hrel : releasesOwn (Browser.start store size) evs = true)
    (hack : answersAttempt (Browser.start store size) evs = true) :
    ∀ pre : List TabEvent, pre <+: evs →
      (∀ i j : Nat, ((Browser.start store size).run pre).holds i = true →
        ((Browser.start store size).run pre).holds j = true → i = j) ∧
      (∀ i : Nat, ((Browser.start store size).run pre).holds i = true →
        ∀ now : Nat,
          (now : Int) - ((((Browser.start store size).run pre).tabs i).lastWrite : Int) < 15000 →
          checkActiveSession ((Browser.start store size).run pre).store now = true) := by
  intro pre hpre
  have hinv := exclusive_run evs (Browser.start store size) (exclusive_start store size)
    hatomic hpace hrel hack pre hpre
  refine ⟨?_, ?_⟩
  · intro i j hi hj
    exact ((hinv j hj).2 i hi)
  · intro i hi now hnow
    obtain ⟨⟨hm, hb⟩, _⟩ := hinv i hi
    rw [checkActiveSession_of_lease _ "active" _ now hm (by decide) hb]
    exact decide_eq_true hnow

/-- Witness for C7 (amended): in `handoverTrace` tab 1 is refused while tab 0
keeps its heartbeat up and connects only after tab 0 was closed; at the end
tab 1 alone holds a session. -/
theorem one_session_at_a_time_witness :
    atomicAdmissions handoverTrace = true ∧
    leaseKeptUp (Browser.start [] 3) handoverTrace = true ∧
    releasesOwn (Browser.start [] 3) handoverTrace = true ∧
    answersAttempt (Browser.start [] 3) handoverTrace = true ∧
    ((Browser.start [] 3).run handoverTrace).holds 1 = true ∧
    (∀ i j : Nat, ((Browser.start [] 3).run handoverTrace).holds i = true →
      ((Browser.start [] 3).run handoverTrace).holds j = true → i = j) :=
  ⟨by decide, by decide, by decide, by decide, by decide,
    (one_session_at_a_time [] 3 handoverTrace (by decide) (by decide) (by decide)
      (by decide) handoverTrace (List.prefix_refl _)).1⟩

end AuraLink
